import Mathlib

/-! UVSG serial data receiver (`src/uvsg_serial_data.c`)

A shallow embedding of the TCP serial-data receiver: a four-state machine
(stopped, error, waiting for a connection, connected) over the POSIX socket
calls.  The POSIX branch of the source (`#ifndef _WIN32`) is the one embedded.

Conventions of the embedding.

* The receiver structure is passed explicitly: every function that takes the
  `UVSGSerialDataReceiver *` returns the receiver as it is after the call.
* The operating system is an oracle: what each system call answers is an
  input of the function (`SetupOutcome`, `PollOutcome`), so every theorem
  quantifies over every possible answer of the OS.
* Every function also returns the list of system calls it issued, in order
  (`OSCall`), with the arguments the source passes.  Writes to `stderr` are
  recorded in that list as `OSCall.fprintf`.
* `UVSGInitializeSocketSupport` only flips a static flag on the POSIX branch
  and issues no system call; it has no counterpart here.
* A sequence of public calls on one receiver is a `Session`: the receiver, the
  caller's pointer and the concatenation of all system calls issued so far.
-/

/-! ## Platform declarations -/

/-- Socket handle type: `typedef int UVSGSocket;` -/
abbrev UVSGSocket := Int

/-- The invalid handle: `#define UVSG_SOCKET_INVALID -1` -/
def UVSG_SOCKET_INVALID : UVSGSocket := -1

/-- Capacity of the receive buffer: `#define SERIAL_TCP_BUFFER_LENGTH 1024` -/
def SERIAL_TCP_BUFFER_LENGTH : Nat := 1024

/-! System-header constants (Linux ABI values; no theorem depends on the
numbers chosen). -/

def AF_INET : Int := 2
def SOCK_STREAM : Int := 1
def IPPROTO_TCP : Int := 6
def SOL_SOCKET : Int := 1
def SO_REUSEADDR : Int := 2
def INADDR_ANY : Int := 0
def F_GETFL : Int := 3
def F_SETFL : Int := 4
def O_NONBLOCK : Int := 2048
def EWOULDBLOCK : Int := 11
def EAGAIN : Int := 11

/-- Function `htons` on a little-endian host: the argument is converted to `uint16_t`
and its two bytes are swapped. -/
def htons (x : Int) : Int :=
  let v := x % 65536
  (v % 256) * 256 + v / 256

/-- Function `htonl` on a little-endian host: the argument is converted to `uint32_t`
and its four bytes are reversed. -/
def htonl (x : Int) : Int :=
  let v := x % 4294967296
  (v % 256) * 16777216 + (v / 256 % 256) * 65536 + (v / 65536 % 256) * 256 + v / 16777216

/-! ## Data model -/

/-- The `UVSGConnectionStatus` enumeration. -/
inductive UVSGConnectionStatus
  | UVSGConnectionStatusStopped
  | UVSGConnectionStatusError
  | UVSGConnectionStatusWaitingForConnection
  | UVSGConnectionStatusConnected
  deriving DecidableEq, Repr

open UVSGConnectionStatus

/-- The receiver, `struct UVSGSerialDataReceiver`.  `buffer` is the `char[1024]` array, one
list element per byte. -/
structure UVSGSerialDataReceiver where
  connectionStatus : UVSGConnectionStatus
  tcpSocket : UVSGSocket
  tcpConnection : UVSGSocket
  buffer : List Nat
  deriving DecidableEq, Repr

/-- The seven diagnostics the source prints to `stderr`, one per format string:
`TCP socket creation error`, `setsockopt(SO_REUSEADDR) failed`,
`fcntl(O_NONBLOCK) failed`, `bind() failed`, `listen() failed`,
`accept() failed`, `Error reading from socket`. -/
inductive Diagnostic
  | socketCreation
  | setsockoptReuseAddr
  | fcntlNonBlock
  | bindFailed
  | listenFailed
  | acceptFailed
  | readFailed
  deriving DecidableEq, Repr

/-- One call into the C library / operating system, with the arguments the
source passes and the value the call returned (`sizeof` arguments left out). -/
inductive OSCall
  | socket (domain socktype protocol : Int) (ret : UVSGSocket)
  | setsockopt (fd : UVSGSocket) (level optname optval : Int) (ret : Int)
  | fcntl (fd : UVSGSocket) (cmd arg : Int) (ret : Int)
  | bind (fd : UVSGSocket) (sin_family sin_port s_addr : Int) (ret : Int)
  | listen (fd : UVSGSocket) (backlog : Int) (ret : Int)
  | accept (fd : UVSGSocket) (ret : UVSGSocket)
  | recv (fd : UVSGSocket) (len : Nat) (flags : Int) (ret : Int)
  | close (fd : UVSGSocket)
  | fprintf (d : Diagnostic) (error : Int)
  deriving DecidableEq, Repr

/-- What the OS answers to the calls of one `UVSGCreateTCPSocket`: the return
value of each call, and the `errno` read after the failing one. -/
structure SetupOutcome where
  socketRet : UVSGSocket
  setsockoptRet : Int
  getflRet : Int
  setflRet : Int
  bindRet : Int
  listenRet : Int
  errno : Int
  deriving DecidableEq, Repr

/-- What the OS does for one `recv(fd, buf, len, 0)` on a stream socket:
`data avail`: `avail` are the bytes the kernel has ready to hand over at this
call, the first `min len avail.length` of them are copied to `buf` and their
number is returned;
`closed`: the peer has shut down, the call returns 0;
`error`: the call returns -1 (would-block or any other error). -/
inductive RecvOutcome
  | data (avail : List Nat)
  | closed
  | error
  deriving DecidableEq, Repr

/-- The value `recv` returns when called with capacity `len`. -/
def RecvOutcome.count (len : Nat) : RecvOutcome → Int
  | .data avail => ((avail.take len).length : Int)
  | .closed => 0
  | .error => -1

/-- The buffer after `recv` with capacity `len` wrote into it. -/
def RecvOutcome.store (len : Nat) (buffer : List Nat) : RecvOutcome → List Nat
  | .data avail => avail.take len ++ buffer.drop (avail.take len).length
  | .closed => buffer
  | .error => buffer

/-- What the OS answers during one `UVSGSerialDataReceiverReceiveData`: the
return value of `accept` (consulted when waiting for a connection), the
behaviour of `recv` (consulted when connected), and the `errno` read after a
failure. -/
structure PollOutcome where
  acceptRet : UVSGSocket
  recv : RecvOutcome
  errno : Int
  deriving DecidableEq, Repr

/-- The value of the caller's variable `*receivedData`: either whatever the
caller had put there, or the address of the receiver's internal buffer. -/
inductive DataPointer
  | caller (p : Nat)
  | receiverBuffer
  deriving DecidableEq, Repr

/-- Result of a function on the receiver: its return value, the receiver after
the call, and the system calls issued. -/
structure Step (α : Type) where
  result : α
  receiver : UVSGSerialDataReceiver
  calls : List OSCall

/-- Result of a poll: the returned byte count, the caller's `*receivedData`
after the call, the receiver after the call, and the system calls issued. -/
structure ReceiveStep where
  result : Nat
  receivedData : DataPointer
  receiver : UVSGSerialDataReceiver
  calls : List OSCall

/-! ## Internal functions -/

/-- Source function `static UVSGSocket UVSGCreateTCPSocket(int port)`: the returned handle and
the system calls issued. -/
def UVSGCreateTCPSocket (port : Int) (os : SetupOutcome) : UVSGSocket × List OSCall :=
  let tcpSocket := os.socketRet
  let c0 := [OSCall.socket AF_INET SOCK_STREAM IPPROTO_TCP tcpSocket]
  if tcpSocket = UVSG_SOCKET_INVALID then
    (UVSG_SOCKET_INVALID, c0 ++ [OSCall.fprintf Diagnostic.socketCreation os.errno])
  else
    let socketOptionValue : Int := 1
    let result := os.setsockoptRet
    let c1 := c0 ++ [OSCall.setsockopt tcpSocket SOL_SOCKET SO_REUSEADDR socketOptionValue result]
    if result < 0 then
      (UVSG_SOCKET_INVALID,
        c1 ++ [OSCall.fprintf Diagnostic.setsockoptReuseAddr os.errno, OSCall.close tcpSocket])
    else
      let flags := os.getflRet
      let status := os.setflRet
      let c2 := c1 ++ [OSCall.fcntl tcpSocket F_GETFL 0 flags,
                       OSCall.fcntl tcpSocket F_SETFL (Int.lor flags O_NONBLOCK) status]
      if status ≠ 0 then
        (UVSG_SOCKET_INVALID,
          c2 ++ [OSCall.fprintf Diagnostic.fcntlNonBlock os.errno, OSCall.close tcpSocket])
      else
        let result := os.bindRet
        let c3 := c2 ++ [OSCall.bind tcpSocket AF_INET (htons port) (htonl INADDR_ANY) result]
        if result < 0 then
          (UVSG_SOCKET_INVALID,
            c3 ++ [OSCall.fprintf Diagnostic.bindFailed os.errno, OSCall.close tcpSocket])
        else
          let result := os.listenRet
          let c4 := c3 ++ [OSCall.listen tcpSocket 1 result]
          if result < 0 then
            (UVSG_SOCKET_INVALID,
              c4 ++ [OSCall.fprintf Diagnostic.listenFailed os.errno, OSCall.close tcpSocket])
          else
            (tcpSocket, c4)

/-- Source function `static void UVSGSerialDataReceiverAcceptConnection(receiver)`. -/
def UVSGSerialDataReceiverAcceptConnection (receiver : UVSGSerialDataReceiver)
    (os : PollOutcome) : Step Unit :=
  let connection := os.acceptRet
  let c0 := [OSCall.accept receiver.tcpSocket connection]
  if connection = -1 then
    let error := os.errno
    if error = EWOULDBLOCK then
      ⟨(), receiver, c0⟩
    else
      ⟨(), receiver, c0 ++ [OSCall.fprintf Diagnostic.acceptFailed error]⟩
  else
    ⟨(), { receiver with
            connectionStatus := UVSGConnectionStatusConnected
            tcpConnection := connection }, c0⟩

/-- Source function
`static size_t UVSGSerialDataReceiverReadFromConnection(receiver, receivedData)`. -/
def UVSGSerialDataReceiverReadFromConnection (receiver : UVSGSerialDataReceiver)
    (receivedData : DataPointer) (os : PollOutcome) : ReceiveStep :=
  let byteCount := os.recv.count SERIAL_TCP_BUFFER_LENGTH
  let receiver1 := { receiver with
                      buffer := os.recv.store SERIAL_TCP_BUFFER_LENGTH receiver.buffer }
  let c0 := [OSCall.recv receiver.tcpConnection SERIAL_TCP_BUFFER_LENGTH 0 byteCount]
  if byteCount < 0 then
    let error := os.errno
    if error = EAGAIN then
      ⟨0, receivedData, receiver1, c0⟩
    else
      ⟨0, receivedData, receiver1, c0 ++ [OSCall.fprintf Diagnostic.readFailed error]⟩
  else if byteCount = 0 then
    ⟨0, receivedData,
      { receiver1 with connectionStatus := UVSGConnectionStatusWaitingForConnection },
      c0 ++ [OSCall.close receiver1.tcpConnection]⟩
  else
    ⟨byteCount.toNat, DataPointer.receiverBuffer, receiver1, c0⟩

/-! ## Public interface -/

/-- Source function `UVSGSerialDataReceiverCreate(void)`: `block` is the memory `malloc`
returned, whose contents are indeterminate; only the status is initialised. -/
def UVSGSerialDataReceiverCreate (block : UVSGSerialDataReceiver) : UVSGSerialDataReceiver :=
  { block with connectionStatus := UVSGConnectionStatusStopped }

/-- Source function `void UVSGSerialDataReceiverStart(receiver, port)`. -/
def UVSGSerialDataReceiverStart (receiver : UVSGSerialDataReceiver) (port : Int)
    (os : SetupOutcome) : Step Unit :=
  let created := UVSGCreateTCPSocket port os
  let socket := created.1
  if socket = UVSG_SOCKET_INVALID then
    ⟨(), { receiver with connectionStatus := UVSGConnectionStatusError }, created.2⟩
  else
    ⟨(), { receiver with
            connectionStatus := UVSGConnectionStatusWaitingForConnection
            tcpSocket := socket }, created.2⟩

/-- Source function `void UVSGSerialDataReceiverStop(receiver)`; the `switch` falls through
from the waiting case into the connected case. -/
def UVSGSerialDataReceiverStop (receiver : UVSGSerialDataReceiver) : Step Unit :=
  match receiver.connectionStatus with
  | UVSGConnectionStatusStopped => ⟨(), receiver, []⟩
  | UVSGConnectionStatusError => ⟨(), receiver, []⟩
  | UVSGConnectionStatusWaitingForConnection =>
    ⟨(), { receiver with connectionStatus := UVSGConnectionStatusStopped },
      [OSCall.close receiver.tcpConnection, OSCall.close receiver.tcpSocket]⟩
  | UVSGConnectionStatusConnected =>
    ⟨(), { receiver with connectionStatus := UVSGConnectionStatusStopped },
      [OSCall.close receiver.tcpSocket]⟩

/-- Source function `void UVSGSerialDataReceiverFree(receiver)`: the receiver is gone
afterwards, only the system calls remain. -/
def UVSGSerialDataReceiverFree (receiver : UVSGSerialDataReceiver) : List OSCall :=
  (UVSGSerialDataReceiverStop receiver).calls

/-- Source function `bool UVSGSerialDataReceiverIsStarted(receiver)`. -/
def UVSGSerialDataReceiverIsStarted (receiver : UVSGSerialDataReceiver) : Step Bool :=
  let connectionStatus := receiver.connectionStatus
  ⟨decide (connectionStatus = UVSGConnectionStatusWaitingForConnection
      ∨ connectionStatus = UVSGConnectionStatusConnected), receiver, []⟩

/-- Source function `size_t UVSGSerialDataReceiverReceiveData(receiver, receivedData)`. -/
def UVSGSerialDataReceiverReceiveData (receiver : UVSGSerialDataReceiver)
    (receivedData : DataPointer) (os : PollOutcome) : ReceiveStep :=
  match receiver.connectionStatus with
  | UVSGConnectionStatusStopped => ⟨0, receivedData, receiver, []⟩
  | UVSGConnectionStatusError => ⟨0, receivedData, receiver, []⟩
  | UVSGConnectionStatusWaitingForConnection =>
    let accepted := UVSGSerialDataReceiverAcceptConnection receiver os
    ⟨0, receivedData, accepted.receiver, accepted.calls⟩
  | UVSGConnectionStatusConnected =>
    UVSGSerialDataReceiverReadFromConnection receiver receivedData os

/-! ## Observations on a list of system calls -/

/-- The handles passed to `close`, in call order. -/
def closedHandles : List OSCall → List UVSGSocket
  | [] => []
  | OSCall.close fd :: rest => fd :: closedHandles rest
  | _ :: rest => closedHandles rest

/-- The handles on which `recv` was called, in call order. -/
def recvHandles : List OSCall → List UVSGSocket
  | [] => []
  | OSCall.recv fd _ _ _ :: rest => fd :: recvHandles rest
  | _ :: rest => recvHandles rest

/-- The handles on which `accept` was called, in call order. -/
def acceptHandles : List OSCall → List UVSGSocket
  | [] => []
  | OSCall.accept fd _ :: rest => fd :: acceptHandles rest
  | _ :: rest => acceptHandles rest

/-- The effect of one system call on the collection of open handles: a
successful `socket` or `accept` adds the handle it returned, `close` removes
one occurrence of its argument, every other call leaves it as it is. -/
def trackOpen (opened : List UVSGSocket) : OSCall → List UVSGSocket
  | OSCall.socket _ _ _ ret => if ret = -1 then opened else ret :: opened
  | OSCall.accept _ ret => if ret = -1 then opened else ret :: opened
  | OSCall.close fd => opened.erase fd
  | _ => opened

/-- The handles open after the calls `calls`, when `opened` were open before. -/
def openAfter (opened : List UVSGSocket) (calls : List OSCall) : List UVSGSocket :=
  calls.foldl trackOpen opened

/-! ## Setup steps -/

/-- All five setup steps succeed, each judged the way the source judges it:
`socket` returned a handle other than the invalid one, `setsockopt` did not
return a negative value, the `fcntl` that sets non-blocking mode returned 0,
`bind` and `listen` did not return a negative value. -/
def setupSucceeds (os : SetupOutcome) : Prop :=
  os.socketRet ≠ UVSG_SOCKET_INVALID ∧ 0 ≤ os.setsockoptRet ∧ os.setflRet = 0 ∧
    0 ≤ os.bindRet ∧ 0 ≤ os.listenRet

instance (os : SetupOutcome) : Decidable (setupSucceeds os) := by
  unfold setupSucceeds
  infer_instance

/-- The five setup steps of `UVSGCreateTCPSocket`, in source order. -/
inductive SetupStep
  | createSocket
  | reuseAddress
  | nonBlocking
  | bindPort
  | listenBacklog
  deriving DecidableEq, Repr

/-- The first setup step that fails, `none` when all succeed. -/
def firstFailedStep (os : SetupOutcome) : Option SetupStep :=
  if os.socketRet = UVSG_SOCKET_INVALID then some SetupStep.createSocket
  else if os.setsockoptRet < 0 then some SetupStep.reuseAddress
  else if os.setflRet ≠ 0 then some SetupStep.nonBlocking
  else if os.bindRet < 0 then some SetupStep.bindPort
  else if os.listenRet < 0 then some SetupStep.listenBacklog
  else none

/-! ## Concrete inputs used by the closed statements -/

/-- A block of memory as `malloc` may return it: nothing meaningful in any
field, 1024 buffer bytes. -/
def freshBlock : UVSGSerialDataReceiver :=
  ⟨UVSGConnectionStatusError, 0, 0, List.replicate 1024 0⟩

/-- OS answers of a setup in which every call succeeds and `socket` returns 3. -/
def setupOk : SetupOutcome := ⟨3, 0, 2, 0, 0, 0, 0⟩

/-- OS answers of a setup in which `bind` fails with `EADDRINUSE` (98): the
port is already bound. -/
def setupBindFails : SetupOutcome := ⟨3, 0, 2, 0, -1, 0, 98⟩

/-- A receiver listening on handle 3 with the peer attached on handle 4. -/
def connectedReceiver : UVSGSerialDataReceiver :=
  ⟨UVSGConnectionStatusConnected, 3, 4, List.replicate 1024 0⟩

/-- A receiver listening on handle 3 with no peer; the connection field still
holds the stale value 0 left by `malloc`. -/
def waitingReceiver : UVSGSerialDataReceiver :=
  ⟨UVSGConnectionStatusWaitingForConnection, 3, 0, List.replicate 1024 0⟩

/-- The receiver after `create()` and a `start(9999)` whose `bind` failed. -/
def failedStartReceiver : UVSGSerialDataReceiver :=
  (UVSGSerialDataReceiverStart (UVSGSerialDataReceiverCreate freshBlock) 9999
    setupBindFails).receiver

/-- OS answers of a poll while a client that has sent the four bytes
`AT\r\n` (65, 84, 13, 10) is there: `accept` would return handle 4, `recv`
would find the four bytes queued. -/
def clientSentAT : PollOutcome := ⟨4, RecvOutcome.data [65, 84, 13, 10], 0⟩

/-- OS answers of a poll at which the peer has closed the connection. -/
def peerClosed : PollOutcome := ⟨-1, RecvOutcome.closed, 0⟩

/-- OS answers of a poll at which nothing is pending: `accept` fails and `recv`
fails, both with `EWOULDBLOCK` (11). -/
def nothingPending : PollOutcome := ⟨-1, RecvOutcome.error, 11⟩

/-- OS answers of a poll at which `accept` and `recv` fail with `ECONNRESET`
(104), an error other than would-block. -/
def connectionReset : PollOutcome := ⟨-1, RecvOutcome.error, 104⟩

/-- OS answers of a setup in which `socket` itself fails with `EMFILE` (24). -/
def setupSocketFails : SetupOutcome := ⟨-1, 0, 0, 0, 0, 0, 24⟩

/-- OS answers of a setup in which `setsockopt` fails. -/
def setupReuseFails : SetupOutcome := ⟨3, -1, 0, 0, 0, 0, 22⟩

/-- OS answers of a setup in which the `fcntl` setting non-blocking mode fails. -/
def setupNonBlockFails : SetupOutcome := ⟨3, 0, 2, -1, 0, 0, 9⟩

/-- OS answers of a setup in which `listen` fails. -/
def setupListenFails : SetupOutcome := ⟨3, 0, 2, 0, 0, -1, 98⟩

/-! ## The end-to-end scenario of the specification -/

/-- The receiver after `create()` (on the block `malloc` returned) and
`start(9999)`. -/
def scenarioStarted (block : UVSGSerialDataReceiver) (os : SetupOutcome) :
    UVSGSerialDataReceiver :=
  (UVSGSerialDataReceiverStart (UVSGSerialDataReceiverCreate block) 9999 os).receiver

/-- The first `poll()` after `start(9999)`. -/
def scenarioFirstPoll (block : UVSGSerialDataReceiver) (os : SetupOutcome) (p : DataPointer)
    (os1 : PollOutcome) : ReceiveStep :=
  UVSGSerialDataReceiverReceiveData (scenarioStarted block os) p os1

/-- The second `poll()` after `start(9999)`. -/
def scenarioSecondPoll (block : UVSGSerialDataReceiver) (os : SetupOutcome) (p : DataPointer)
    (os1 os2 : PollOutcome) : ReceiveStep :=
  UVSGSerialDataReceiverReceiveData (scenarioFirstPoll block os p os1).receiver
    (scenarioFirstPoll block os p os1).receivedData os2

/-! ## Ownership according to status -/

/-- The handles the receiver holds according to its status, after the table of
the specification: none when Stopped or Error, the listen handle when waiting
for a connection, the listen handle and the peer handle when Connected. -/
def heldHandles (receiver : UVSGSerialDataReceiver) : List UVSGSocket :=
  match receiver.connectionStatus with
  | UVSGConnectionStatusStopped => []
  | UVSGConnectionStatusError => []
  | UVSGConnectionStatusWaitingForConnection => [receiver.tcpSocket]
  | UVSGConnectionStatusConnected => [receiver.tcpSocket, receiver.tcpConnection]

/-- The handles the component has put into non-blocking mode: those on which
an `fcntl(fd, F_SETFL, flags)` with `O_NONBLOCK` set in `flags` returned 0. -/
def nonBlockingHandles : List OSCall → List UVSGSocket
  | [] => []
  | OSCall.fcntl fd cmd arg ret :: rest =>
    if cmd = F_SETFL ∧ Int.land arg O_NONBLOCK = O_NONBLOCK ∧ ret = 0 then
      fd :: nonBlockingHandles rest
    else nonBlockingHandles rest
  | _ :: rest => nonBlockingHandles rest

/-- The setup step a system call belongs to; the step that sets non-blocking
mode is the `fcntl` with command `F_SETFL` (the `F_GETFL` before it only
reads the flags). -/
def setupStepOf : OSCall → Option SetupStep
  | OSCall.socket _ _ _ _ => some SetupStep.createSocket
  | OSCall.setsockopt _ _ _ _ _ => some SetupStep.reuseAddress
  | OSCall.fcntl _ cmd _ _ => if cmd = F_SETFL then some SetupStep.nonBlocking else none
  | OSCall.bind _ _ _ _ _ => some SetupStep.bindPort
  | OSCall.listen _ _ _ => some SetupStep.listenBacklog
  | _ => none

/-- The setup steps issued by a list of system calls, in call order. -/
def issuedSteps (calls : List OSCall) : List SetupStep :=
  calls.filterMap setupStepOf

/-- The setup steps in source order up to and including `step`. -/
def stepsThrough : SetupStep → List SetupStep
  | SetupStep.createSocket => [SetupStep.createSocket]
  | SetupStep.reuseAddress => [SetupStep.createSocket, SetupStep.reuseAddress]
  | SetupStep.nonBlocking =>
    [SetupStep.createSocket, SetupStep.reuseAddress, SetupStep.nonBlocking]
  | SetupStep.bindPort =>
    [SetupStep.createSocket, SetupStep.reuseAddress, SetupStep.nonBlocking, SetupStep.bindPort]
  | SetupStep.listenBacklog =>
    [SetupStep.createSocket, SetupStep.reuseAddress, SetupStep.nonBlocking, SetupStep.bindPort,
      SetupStep.listenBacklog]

/-! ## Sequences of operations on one receiver -/

/-- One call of the public interface, with the answers of the OS during it. -/
inductive Operation
  | start (port : Int) (os : SetupOutcome)
  | stop
  | poll (os : PollOutcome)

/-- The receiver, the caller's `*receivedData`, and all system calls issued so
far, in order. -/
structure Session where
  receiver : UVSGSerialDataReceiver
  receivedData : DataPointer
  calls : List OSCall

/-- The session after one more operation. -/
def Session.apply (s : Session) : Operation → Session
  | Operation.start port os =>
    ⟨(UVSGSerialDataReceiverStart s.receiver port os).receiver, s.receivedData,
      s.calls ++ (UVSGSerialDataReceiverStart s.receiver port os).calls⟩
  | Operation.stop =>
    ⟨(UVSGSerialDataReceiverStop s.receiver).receiver, s.receivedData,
      s.calls ++ (UVSGSerialDataReceiverStop s.receiver).calls⟩
  | Operation.poll os =>
    ⟨(UVSGSerialDataReceiverReceiveData s.receiver s.receivedData os).receiver,
      (UVSGSerialDataReceiverReceiveData s.receiver s.receivedData os).receivedData,
      s.calls ++ (UVSGSerialDataReceiverReceiveData s.receiver s.receivedData os).calls⟩

/-- The session after `create()` on the block `malloc` returned, followed by
the operations `ops` in order. -/
def runSession (block : UVSGSerialDataReceiver) (p : DataPointer) (ops : List Operation) :
    Session :=
  ops.foldl Session.apply ⟨UVSGSerialDataReceiverCreate block, p, []⟩

/-! ## A byte stream read by repeated polls -/

/-- The byte sequence a poll hands to its caller: the `result` bytes found at
`*receivedData`. -/
def ReceiveStep.returnedBytes (s : ReceiveStep) : List Nat :=
  match s.receivedData with
  | DataPointer.receiverBuffer => s.receiver.buffer.take s.result
  | DataPointer.caller _ => []

/-- The answer of the OS to a poll on a connected socket on which the bytes
`pending` are still to be read and the kernel is ready to hand over at most
`k` of them: the prefix of `pending` of that length, or would-block when
nothing is pending. -/
def streamOutcome (pending : List Nat) (k : Nat) : PollOutcome :=
  match pending with
  | [] => ⟨-1, RecvOutcome.error, EAGAIN⟩
  | _ :: _ => ⟨-1, RecvOutcome.data (pending.take k), 0⟩

/-- The outcome of a run of polls on a byte stream: the byte sequences the
polls returned, in call order, the bytes still pending, and the receiver and
the caller's pointer at the end. -/
structure StreamRun where
  returned : List (List Nat)
  pending : List Nat
  receiver : UVSGSerialDataReceiver
  receivedData : DataPointer

/-- Repeated polls, one per element of the schedule: at the poll with schedule
entry `k` the kernel is ready to hand over at most `k` of the pending bytes;
the bytes a poll returned are no longer pending at the next one. -/
def pollStream (receiver : UVSGSerialDataReceiver) (receivedData : DataPointer)
    (pending : List Nat) : List Nat → StreamRun
  | [] => ⟨[], pending, receiver, receivedData⟩
  | k :: ks =>
    let step := UVSGSerialDataReceiverReceiveData receiver receivedData
      (streamOutcome pending k)
    let rest := pollStream step.receiver step.receivedData (pending.drop step.result) ks
    ⟨step.returnedBytes :: rest.returned, rest.pending, rest.receiver, rest.receivedData⟩

/-- The number of bytes a schedule can deliver: each poll at most its entry
and at most the buffer capacity. -/
def scheduleCapacity (ks : List Nat) : Nat :=
  (ks.map (fun k => min k SERIAL_TCP_BUFFER_LENGTH)).sum

/-- A stream of 1027 bytes: 1024 times `A` (65), then `T`, `\r`, `\n`. -/
def longStream : List Nat := List.replicate 1024 65 ++ [84, 13, 10]

/-- The handles stored in the two handle fields of the receiver, whatever the
status. -/
def referencedHandles (receiver : UVSGSerialDataReceiver) : List UVSGSocket :=
  [receiver.tcpSocket, receiver.tcpConnection]

/-- OS answers of a second setup in which every call succeeds and `socket`
returns 5. -/
def setupOkAgain : SetupOutcome := ⟨5, 0, 2, 0, 0, 0, 0⟩

/-- The operations `start(9999)`, a poll that accepts a client on handle 4,
and a further poll that reads the client's bytes. -/
def sessionReadFromClient : List Operation :=
  [Operation.start 9999 setupOk, Operation.poll clientSentAT, Operation.poll clientSentAT]

/-- The operations `start(9999)`, a poll that accepts a client on handle 4,
then `stop()`. -/
def sessionStopWhileConnected : List Operation :=
  [Operation.start 9999 setupOk, Operation.poll clientSentAT, Operation.stop]

/-- The operations `start(9999)` then `stop()`, no client in between. -/
def sessionStopWhileWaiting : List Operation :=
  [Operation.start 9999 setupOk, Operation.stop]

/-- The operations `start(9999)`, a poll that accepts a client on handle 4, a
poll that finds the peer gone, then `stop()`. -/
def sessionStopAfterDisconnect : List Operation :=
  [Operation.start 9999 setupOk, Operation.poll clientSentAT, Operation.poll peerClosed,
    Operation.stop]

/-! ## Stop -/

/-- C1 (as stated, refuted): after `create()` and a `start(9999)` whose `bind`
failed the status is Error, and `UVSGSerialDataReceiverStop` leaves it Error:
the status after Stop is not Stopped. -/
theorem stop_in_error_state_not_stopped :
    failedStartReceiver.connectionStatus = UVSGConnectionStatusError ∧
    (UVSGSerialDataReceiverStop failedStartReceiver).receiver.connectionStatus
      ≠ UVSGConnectionStatusStopped := by
  decide

/-- C1 (amended): from Stopped, WaitingForConnection and Connected, with any
handle values, one Stop leaves the status Stopped and a second Stop leaves it
Stopped again; from Error, Stop leaves the status Error both times.  In every
state the second Stop changes no field and issues no system call. -/
theorem stop_twice_status (r : UVSGSerialDataReceiver) :
    (UVSGSerialDataReceiverStop r).receiver.connectionStatus
        = (if r.connectionStatus = UVSGConnectionStatusError
            then UVSGConnectionStatusError else UVSGConnectionStatusStopped) ∧
    (UVSGSerialDataReceiverStop (UVSGSerialDataReceiverStop r).receiver).receiver.connectionStatus
        = (if r.connectionStatus = UVSGConnectionStatusError
            then UVSGConnectionStatusError else UVSGConnectionStatusStopped) ∧
    (UVSGSerialDataReceiverStop (UVSGSerialDataReceiverStop r).receiver).receiver
        = (UVSGSerialDataReceiverStop r).receiver ∧
    (UVSGSerialDataReceiverStop (UVSGSerialDataReceiverStop r).receiver).calls = [] := by
  obtain ⟨status, s, c, b⟩ := r
  cases status <;> simp [UVSGSerialDataReceiverStop]

/-- C2 (the code at the failing input): Stop on a Connected receiver with
listen handle 3 and peer handle 4 issues the single call `close(3)`; the peer
handle 4 is never closed and is still open afterwards, although the status is
Stopped. -/
theorem stop_connected_leaves_peer_open :
    (UVSGSerialDataReceiverStop connectedReceiver).calls = [OSCall.close 3] ∧
    closedHandles (UVSGSerialDataReceiverStop connectedReceiver).calls = [3] ∧
    openAfter [4, 3] (UVSGSerialDataReceiverStop connectedReceiver).calls = [4] ∧
    (UVSGSerialDataReceiverStop connectedReceiver).receiver.connectionStatus
      = UVSGConnectionStatusStopped := by
  decide

/-! ## Poll: reading from the connection -/

/-- The byte count `recv` returns never exceeds the capacity it was given. -/
theorem RecvOutcome.count_le (len : Nat) (o : RecvOutcome) : o.count len ≤ (len : Int) := by
  cases o with
  | data avail =>
    simp only [RecvOutcome.count, List.length_take]
    exact_mod_cast Nat.min_le_left len avail.length
  | closed => simp [RecvOutcome.count]
  | error => simp only [RecvOutcome.count]; omega

/-- A poll of a Connected receiver is the read from the connection. -/
theorem receiveData_connected (r : UVSGSerialDataReceiver) (p : DataPointer) (os : PollOutcome)
    (hconn : r.connectionStatus = UVSGConnectionStatusConnected) :
    UVSGSerialDataReceiverReceiveData r p os
      = UVSGSerialDataReceiverReadFromConnection r p os := by
  simp [UVSGSerialDataReceiverReceiveData, hconn]

/-- A poll of a receiver waiting for a connection is the accept attempt, and
returns 0 without touching the caller's pointer. -/
theorem receiveData_waiting (r : UVSGSerialDataReceiver) (p : DataPointer) (os : PollOutcome)
    (hwait : r.connectionStatus = UVSGConnectionStatusWaitingForConnection) :
    UVSGSerialDataReceiverReceiveData r p os
      = ⟨0, p, (UVSGSerialDataReceiverAcceptConnection r os).receiver,
          (UVSGSerialDataReceiverAcceptConnection r os).calls⟩ := by
  simp [UVSGSerialDataReceiverReceiveData, hwait]

/-- The read from the connection when `recv` delivers between 1 and 1024 bytes. -/
theorem readFromConnection_data (r : UVSGSerialDataReceiver) (p : DataPointer)
    (os : PollOutcome) (b : List Nat) (hrecv : os.recv = RecvOutcome.data b)
    (hpos : 1 ≤ b.length) (hcap : b.length ≤ 1024) :
    UVSGSerialDataReceiverReadFromConnection r p os
      = ⟨b.length, DataPointer.receiverBuffer,
          { r with buffer := b ++ r.buffer.drop b.length },
          [OSCall.recv r.tcpConnection 1024 0 b.length]⟩ := by
  have htake : List.take 1024 b = b := List.take_of_length_le hcap
  have hmin : min 1024 b.length = b.length := Nat.min_eq_right hcap
  have hne : ¬ ((b.length : Int) < 0) := by omega
  have hnz : ¬ ((b.length : Int) = 0) := by omega
  simp [UVSGSerialDataReceiverReadFromConnection, hrecv, RecvOutcome.count, RecvOutcome.store,
    SERIAL_TCP_BUFFER_LENGTH, htake, hmin, hnz, hcap]

/-- The byte count a poll returns is at most the buffer capacity, in every
state and for every answer of the OS. -/
theorem receiveData_result_le (r : UVSGSerialDataReceiver) (p : DataPointer)
    (os : PollOutcome) : (UVSGSerialDataReceiverReceiveData r p os).result ≤ 1024 := by
  have hle := RecvOutcome.count_le SERIAL_TCP_BUFFER_LENGTH os.recv
  simp only [SERIAL_TCP_BUFFER_LENGTH, Nat.cast_ofNat] at hle
  unfold UVSGSerialDataReceiverReceiveData UVSGSerialDataReceiverReadFromConnection
  cases r.connectionStatus <;> simp only [SERIAL_TCP_BUFFER_LENGTH] <;> try omega
  split_ifs <;> simp only <;> omega

/-- C3: when the receiver is Connected and the single `recv` of a poll delivers
the `n` bytes `b` with `1 ≤ n ≤ 1024`, the poll returns exactly `n`, sets
`*receivedData` to the internal buffer, the first `n` bytes of the buffer are
`b`, the status stays Connected (handles unchanged), and the one system call
is `recv` on the peer handle with capacity 1024; and for every receiver and
every OS answer the returned length is at most 1024. -/
theorem receive_data_returns_sent_bytes (r : UVSGSerialDataReceiver) (p : DataPointer)
    (os : PollOutcome) (b : List Nat)
    (hconn : r.connectionStatus = UVSGConnectionStatusConnected)
    (hrecv : os.recv = RecvOutcome.data b)
    (hpos : 1 ≤ b.length) (hcap : b.length ≤ 1024) :
    (UVSGSerialDataReceiverReceiveData r p os).result = b.length ∧
    (UVSGSerialDataReceiverReceiveData r p os).receivedData = DataPointer.receiverBuffer ∧
    (UVSGSerialDataReceiverReceiveData r p os).receiver.buffer.take b.length = b ∧
    (UVSGSerialDataReceiverReceiveData r p os).receiver.connectionStatus
      = UVSGConnectionStatusConnected ∧
    (UVSGSerialDataReceiverReceiveData r p os).receiver.tcpSocket = r.tcpSocket ∧
    (UVSGSerialDataReceiverReceiveData r p os).receiver.tcpConnection = r.tcpConnection ∧
    (UVSGSerialDataReceiverReceiveData r p os).calls
      = [OSCall.recv r.tcpConnection 1024 0 b.length] ∧
    (∀ (r1 : UVSGSerialDataReceiver) (p1 : DataPointer) (os1 : PollOutcome),
      (UVSGSerialDataReceiverReceiveData r1 p1 os1).result ≤ 1024) := by
  rw [receiveData_connected r p os hconn, readFromConnection_data r p os b hrecv hpos hcap]
  exact ⟨rfl, rfl, by simp, hconn, rfl, rfl, rfl, receiveData_result_le⟩

/-- C3 at a concrete input: a Connected receiver whose `recv` finds the four
bytes `AT\r\n` returns 4 and has them at the start of its buffer. -/
theorem receive_data_returns_sent_bytes_witness :
    (UVSGSerialDataReceiverReceiveData connectedReceiver (DataPointer.caller 0)
        clientSentAT).result = 4 ∧
    (UVSGSerialDataReceiverReceiveData connectedReceiver (DataPointer.caller 0)
        clientSentAT).receivedData = DataPointer.receiverBuffer ∧
    (UVSGSerialDataReceiverReceiveData connectedReceiver (DataPointer.caller 0)
        clientSentAT).receiver.buffer.take 4 = [65, 84, 13, 10] :=
  have h := receive_data_returns_sent_bytes connectedReceiver (DataPointer.caller 0)
    clientSentAT [65, 84, 13, 10] rfl rfl (by decide) (by decide)
  ⟨h.1, h.2.1, h.2.2.1⟩

/-! ## Poll: accepting a connection -/

/-- The accept attempt when `accept` returns a handle other than -1. -/
theorem acceptConnection_success (r : UVSGSerialDataReceiver) (os : PollOutcome)
    (hc : os.acceptRet ≠ -1) :
    (UVSGSerialDataReceiverAcceptConnection r os).receiver
      = { r with connectionStatus := UVSGConnectionStatusConnected
                 tcpConnection := os.acceptRet } ∧
    (UVSGSerialDataReceiverAcceptConnection r os).calls
      = [OSCall.accept r.tcpSocket os.acceptRet] := by
  simp [UVSGSerialDataReceiverAcceptConnection, hc]

/-- C4: when the receiver is waiting for a connection and the single `accept`
of a poll succeeds with handle `c`, then after the poll the status is
Connected, `tcpConnection = c`, the listen handle and the buffer are
unchanged, the only system call is that `accept` on the listen handle (no
`recv`), and the poll returns 0 without touching `*receivedData`, whatever
the peer has already sent (`os.recv` is arbitrary); a following poll whose
`recv` delivers the bytes `b` returns them. -/
theorem poll_accept_connects (r : UVSGSerialDataReceiver) (p : DataPointer)
    (os : PollOutcome) (c : UVSGSocket)
    (hwait : r.connectionStatus = UVSGConnectionStatusWaitingForConnection)
    (hacc : os.acceptRet = c) (hc : c ≠ -1) :
    (UVSGSerialDataReceiverReceiveData r p os).result = 0 ∧
    (UVSGSerialDataReceiverReceiveData r p os).receivedData = p ∧
    (UVSGSerialDataReceiverReceiveData r p os).receiver.connectionStatus
      = UVSGConnectionStatusConnected ∧
    (UVSGSerialDataReceiverReceiveData r p os).receiver.tcpConnection = c ∧
    (UVSGSerialDataReceiverReceiveData r p os).receiver.tcpSocket = r.tcpSocket ∧
    (UVSGSerialDataReceiverReceiveData r p os).receiver.buffer = r.buffer ∧
    (UVSGSerialDataReceiverReceiveData r p os).calls = [OSCall.accept r.tcpSocket c] ∧
    recvHandles (UVSGSerialDataReceiverReceiveData r p os).calls = [] ∧
    (∀ (os2 : PollOutcome) (b : List Nat), os2.recv = RecvOutcome.data b →
      1 ≤ b.length → b.length ≤ 1024 →
      (UVSGSerialDataReceiverReceiveData
          (UVSGSerialDataReceiverReceiveData r p os).receiver p os2).result = b.length ∧
      (UVSGSerialDataReceiverReceiveData
          (UVSGSerialDataReceiverReceiveData r p os).receiver p os2).receiver.buffer.take
            b.length = b ∧
      (UVSGSerialDataReceiverReceiveData
          (UVSGSerialDataReceiverReceiveData r p os).receiver p os2).calls
        = [OSCall.recv c 1024 0 b.length]) := by
  subst hacc
  obtain ⟨hrec, hcalls⟩ := acceptConnection_success r os hc
  rw [receiveData_waiting r p os hwait, hrec, hcalls]
  refine ⟨rfl, rfl, rfl, rfl, rfl, rfl, rfl, rfl, ?_⟩
  intro os2 b hrecv hpos hcap
  rw [receiveData_connected _ p os2 rfl, readFromConnection_data _ p os2 b hrecv hpos hcap]
  exact ⟨rfl, by simp, rfl⟩

/-- C4 at a concrete input: the waiting receiver, polled while a client that
has already sent `AT\r\n` is pending, becomes Connected on handle 4 and the
poll returns 0 after a single `accept` on handle 3. -/
theorem poll_accept_connects_witness :
    (UVSGSerialDataReceiverReceiveData waitingReceiver (DataPointer.caller 0)
        clientSentAT).result = 0 ∧
    (UVSGSerialDataReceiverReceiveData waitingReceiver (DataPointer.caller 0)
        clientSentAT).receiver.connectionStatus = UVSGConnectionStatusConnected ∧
    (UVSGSerialDataReceiverReceiveData waitingReceiver (DataPointer.caller 0)
        clientSentAT).receiver.tcpConnection = 4 ∧
    (UVSGSerialDataReceiverReceiveData waitingReceiver (DataPointer.caller 0)
        clientSentAT).calls = [OSCall.accept 3 4] :=
  have h := poll_accept_connects waitingReceiver (DataPointer.caller 0) clientSentAT 4
    rfl rfl (by decide)
  ⟨h.1, h.2.2.1, h.2.2.2.1, h.2.2.2.2.2.2.1⟩

/-! ## Poll: peer disconnect and failed calls -/

/-- When `recv` returns 0 it has written nothing into the buffer. -/
theorem RecvOutcome.store_of_count_zero (len : Nat) (buffer : List Nat) (o : RecvOutcome)
    (hzero : o.count len = 0) : o.store len buffer = buffer := by
  cases o with
  | data avail =>
    simp only [RecvOutcome.count] at hzero
    have hlen : (List.take len avail).length = 0 := by exact_mod_cast hzero
    have hnil : List.take len avail = [] := List.eq_nil_of_length_eq_zero hlen
    simp [RecvOutcome.store, hnil]
  | closed => rfl
  | error => rfl

/-- When `recv` returns a negative value it has written nothing into the buffer. -/
theorem RecvOutcome.store_of_count_neg (len : Nat) (buffer : List Nat) (o : RecvOutcome)
    (hneg : o.count len < 0) : o.store len buffer = buffer := by
  cases o with
  | data avail =>
    simp only [RecvOutcome.count] at hneg
    omega
  | closed => rfl
  | error => rfl

/-- The read from the connection when `recv` returns 0. -/
theorem readFromConnection_closed (r : UVSGSerialDataReceiver) (p : DataPointer)
    (os : PollOutcome) (hzero : os.recv.count SERIAL_TCP_BUFFER_LENGTH = 0) :
    UVSGSerialDataReceiverReadFromConnection r p os
      = ⟨0, p, { r with connectionStatus := UVSGConnectionStatusWaitingForConnection },
          [OSCall.recv r.tcpConnection 1024 0 0, OSCall.close r.tcpConnection]⟩ := by
  have hstore := RecvOutcome.store_of_count_zero SERIAL_TCP_BUFFER_LENGTH r.buffer os.recv hzero
  simp only [UVSGSerialDataReceiverReadFromConnection, hzero, hstore]
  simp [SERIAL_TCP_BUFFER_LENGTH]

/-- A handle other than the closed one stays open across `recv; close`. -/
theorem openAfter_recv_close (opened : List UVSGSocket) (fd s : UVSGSocket) (len : Nat)
    (flags ret : Int) (hne : s ≠ fd) (hmem : s ∈ opened) :
    s ∈ openAfter opened [OSCall.recv fd len flags ret, OSCall.close fd] := by
  simp only [openAfter, List.foldl, trackOpen]
  exact (List.mem_erase_of_ne hne).mpr hmem

/-- C5: when the receiver is Connected and the `recv` of a poll returns 0, the
poll issues `recv` and then one `close` of the peer handle and nothing else,
sets the status to WaitingForConnection, returns 0 and leaves `tcpSocket`
unchanged; the listen handle, being a handle other than the peer handle, is
not closed and stays open; a following poll calls `accept` on that same listen
handle, and when that `accept` succeeds the status is Connected again. -/
theorem poll_peer_closed_back_to_waiting (r : UVSGSerialDataReceiver) (p : DataPointer)
    (os : PollOutcome)
    (hconn : r.connectionStatus = UVSGConnectionStatusConnected)
    (hzero : os.recv.count SERIAL_TCP_BUFFER_LENGTH = 0) :
    (UVSGSerialDataReceiverReceiveData r p os).result = 0 ∧
    (UVSGSerialDataReceiverReceiveData r p os).receivedData = p ∧
    (UVSGSerialDataReceiverReceiveData r p os).receiver.connectionStatus
      = UVSGConnectionStatusWaitingForConnection ∧
    (UVSGSerialDataReceiverReceiveData r p os).receiver.tcpSocket = r.tcpSocket ∧
    (UVSGSerialDataReceiverReceiveData r p os).calls
      = [OSCall.recv r.tcpConnection 1024 0 0, OSCall.close r.tcpConnection] ∧
    closedHandles (UVSGSerialDataReceiverReceiveData r p os).calls = [r.tcpConnection] ∧
    (r.tcpSocket ≠ r.tcpConnection →
      r.tcpSocket ∉ closedHandles (UVSGSerialDataReceiverReceiveData r p os).calls ∧
      ∀ opened : List UVSGSocket, r.tcpSocket ∈ opened →
        r.tcpSocket ∈ openAfter opened (UVSGSerialDataReceiverReceiveData r p os).calls) ∧
    (∀ os2 : PollOutcome,
      acceptHandles (UVSGSerialDataReceiverReceiveData
          (UVSGSerialDataReceiverReceiveData r p os).receiver p os2).calls = [r.tcpSocket] ∧
      (os2.acceptRet ≠ -1 →
        (UVSGSerialDataReceiverReceiveData
            (UVSGSerialDataReceiverReceiveData r p os).receiver p os2).receiver.connectionStatus
          = UVSGConnectionStatusConnected ∧
        (UVSGSerialDataReceiverReceiveData
            (UVSGSerialDataReceiverReceiveData r p os).receiver p os2).receiver.tcpConnection
          = os2.acceptRet ∧
        (UVSGSerialDataReceiverReceiveData
            (UVSGSerialDataReceiverReceiveData r p os).receiver p os2).receiver.tcpSocket
          = r.tcpSocket)) := by
  rw [receiveData_connected r p os hconn, readFromConnection_closed r p os hzero]
  refine ⟨rfl, rfl, rfl, rfl, rfl, rfl, ?_, ?_⟩
  · intro hne
    refine ⟨by simpa [closedHandles] using hne, ?_⟩
    intro opened hmem
    exact openAfter_recv_close opened r.tcpConnection r.tcpSocket 1024 0 0 hne hmem
  · intro os2
    rw [receiveData_waiting _ p os2 rfl]
    refine ⟨?_, ?_⟩
    · simp only [UVSGSerialDataReceiverAcceptConnection]
      split_ifs <;> simp [acceptHandles]
    · intro hc
      obtain ⟨hrec, -⟩ := acceptConnection_success
        { r with connectionStatus := UVSGConnectionStatusWaitingForConnection } os2 hc
      simp [hrec]

/-- C5 at a concrete input: the Connected receiver (listen handle 3, peer
handle 4) polled after the peer closed issues `recv` and `close(4)`, is back
to WaitingForConnection with handle 3 still open, and the next poll accepts a
new client on handle 3. -/
theorem poll_peer_closed_back_to_waiting_witness :
    (UVSGSerialDataReceiverReceiveData connectedReceiver (DataPointer.caller 0)
        peerClosed).receiver.connectionStatus = UVSGConnectionStatusWaitingForConnection ∧
    (UVSGSerialDataReceiverReceiveData connectedReceiver (DataPointer.caller 0)
        peerClosed).calls = [OSCall.recv 4 1024 0 0, OSCall.close 4] ∧
    (3 : UVSGSocket) ∈ openAfter [4, 3] (UVSGSerialDataReceiverReceiveData connectedReceiver
        (DataPointer.caller 0) peerClosed).calls ∧
    (UVSGSerialDataReceiverReceiveData
        (UVSGSerialDataReceiverReceiveData connectedReceiver (DataPointer.caller 0)
          peerClosed).receiver (DataPointer.caller 0) clientSentAT).receiver.connectionStatus
      = UVSGConnectionStatusConnected :=
  have h := poll_peer_closed_back_to_waiting connectedReceiver (DataPointer.caller 0)
    peerClosed rfl rfl
  ⟨h.2.2.1, h.2.2.2.2.1,
    (h.2.2.2.2.2.2.1 (by decide)).2 [4, 3] (by decide),
    ((h.2.2.2.2.2.2.2 clientSentAT).2 (by decide)).1⟩

/-- C6: a failed OS call inside a poll is a skipped poll.  When the receiver
is waiting and `accept` fails (returns -1), or is Connected and `recv` returns
a negative value, then for every error code (would-block or any other) the
poll returns 0, leaves `*receivedData` and every field of the receiver
(status, both handles, buffer) unchanged, closes no socket, and the status
after the poll is not Error. -/
theorem poll_failed_call_is_skipped (r : UVSGSerialDataReceiver) (p : DataPointer)
    (os : PollOutcome)
    (hfail : (r.connectionStatus = UVSGConnectionStatusWaitingForConnection ∧
                os.acceptRet = -1) ∨
             (r.connectionStatus = UVSGConnectionStatusConnected ∧
                os.recv.count SERIAL_TCP_BUFFER_LENGTH < 0)) :
    (UVSGSerialDataReceiverReceiveData r p os).result = 0 ∧
    (UVSGSerialDataReceiverReceiveData r p os).receivedData = p ∧
    (UVSGSerialDataReceiverReceiveData r p os).receiver = r ∧
    closedHandles (UVSGSerialDataReceiverReceiveData r p os).calls = [] ∧
    (UVSGSerialDataReceiverReceiveData r p os).receiver.connectionStatus
      ≠ UVSGConnectionStatusError := by
  rcases hfail with ⟨hwait, hacc⟩ | ⟨hconn, hneg⟩
  · rw [receiveData_waiting r p os hwait]
    simp only [UVSGSerialDataReceiverAcceptConnection, hacc]
    split_ifs <;> simp [closedHandles, hwait]
  · have hstore :=
      RecvOutcome.store_of_count_neg SERIAL_TCP_BUFFER_LENGTH r.buffer os.recv hneg
    rw [receiveData_connected r p os hconn]
    simp only [UVSGSerialDataReceiverReadFromConnection, hneg, hstore, if_true]
    obtain ⟨status, s, c, b⟩ := r
    simp only at hconn
    subst hconn
    split_ifs <;> simp [closedHandles]

/-- C6 at concrete inputs: the waiting receiver polled with a would-block
`accept`, and the Connected receiver polled with a `recv` that fails with
`ECONNRESET`, are both left exactly as they were and the polls return 0. -/
theorem poll_failed_call_is_skipped_witness :
    ((UVSGSerialDataReceiverReceiveData waitingReceiver (DataPointer.caller 0)
        nothingPending).result = 0 ∧
     (UVSGSerialDataReceiverReceiveData waitingReceiver (DataPointer.caller 0)
        nothingPending).receiver = waitingReceiver) ∧
    ((UVSGSerialDataReceiverReceiveData connectedReceiver (DataPointer.caller 0)
        connectionReset).result = 0 ∧
     (UVSGSerialDataReceiverReceiveData connectedReceiver (DataPointer.caller 0)
        connectionReset).receiver = connectedReceiver ∧
     closedHandles (UVSGSerialDataReceiverReceiveData connectedReceiver (DataPointer.caller 0)
        connectionReset).calls = []) :=
  have h1 := poll_failed_call_is_skipped waitingReceiver (DataPointer.caller 0)
    nothingPending (Or.inl ⟨rfl, rfl⟩)
  have h2 := poll_failed_call_is_skipped connectedReceiver (DataPointer.caller 0)
    connectionReset (Or.inr ⟨rfl, by decide⟩)
  ⟨⟨h1.1, h1.2.2.1⟩, ⟨h2.1, h2.2.2.1, h2.2.2.2.1⟩⟩

/-! ## Start -/

/-- The handle `UVSGCreateTCPSocket` returns: the new handle when all five steps
succeed, the invalid handle otherwise. -/
theorem createTCPSocket_handle (port : Int) (os : SetupOutcome) :
    (UVSGCreateTCPSocket port os).1
      = if setupSucceeds os then os.socketRet else UVSG_SOCKET_INVALID := by
  unfold UVSGCreateTCPSocket setupSucceeds
  by_cases h1 : os.socketRet = UVSG_SOCKET_INVALID
  · simp [h1]
  by_cases h2 : os.setsockoptRet < 0
  · have : ¬ (0 ≤ os.setsockoptRet) := by omega
    simp [h1, h2, this]
  by_cases h3 : os.setflRet = 0
  swap
  · simp [h1, h2, h3]
  by_cases h4 : os.bindRet < 0
  · have : ¬ (0 ≤ os.bindRet) := by omega
    simp [h1, h2, h3, h4, this]
  by_cases h5 : os.listenRet < 0
  · have : ¬ (0 ≤ os.listenRet) := by omega
    simp [h1, h2, h3, h4, h5, this]
  · have h2p : 0 ≤ os.setsockoptRet := by omega
    have h4p : 0 ≤ os.bindRet := by omega
    have h5p : 0 ≤ os.listenRet := by omega
    simp [h1, h2, h3, h4, h5, h2p, h4p, h5p]

/-- A Start whose five setup steps succeed stores the new handle and sets the
status to WaitingForConnection; the other fields keep their values. -/
theorem start_success (r : UVSGSerialDataReceiver) (port : Int) (os : SetupOutcome)
    (hsetup : setupSucceeds os) :
    (UVSGSerialDataReceiverStart r port os).receiver
      = { r with connectionStatus := UVSGConnectionStatusWaitingForConnection
                 tcpSocket := os.socketRet } := by
  have hhandle := createTCPSocket_handle port os
  have hvalid : os.socketRet ≠ UVSG_SOCKET_INVALID := hsetup.1
  simp only [hsetup, if_true] at hhandle
  simp [UVSGSerialDataReceiverStart, hhandle, hvalid]

/-- C7: for every prior receiver state, every port and every answer of the OS,
`UVSGSerialDataReceiverStart` ends with status WaitingForConnection and
`tcpSocket` equal to the handle `socket` returned if and only if all five
setup steps succeeded, ends with status Error if and only if one of them
failed, and `UVSGSerialDataReceiverIsStarted` right after Start returns true
if and only if all five steps succeeded. -/
theorem start_waiting_iff_setup_succeeds (r : UVSGSerialDataReceiver) (port : Int)
    (os : SetupOutcome) :
    (((UVSGSerialDataReceiverStart r port os).receiver.connectionStatus
          = UVSGConnectionStatusWaitingForConnection ∧
        (UVSGSerialDataReceiverStart r port os).receiver.tcpSocket = os.socketRet)
      ↔ setupSucceeds os) ∧
    ((UVSGSerialDataReceiverStart r port os).receiver.connectionStatus
          = UVSGConnectionStatusError
      ↔ ¬ setupSucceeds os) ∧
    ((UVSGSerialDataReceiverIsStarted
          (UVSGSerialDataReceiverStart r port os).receiver).result = true
      ↔ setupSucceeds os) := by
  have hhandle := createTCPSocket_handle port os
  by_cases hs : setupSucceeds os
  · have hvalid : os.socketRet ≠ UVSG_SOCKET_INVALID := hs.1
    simp only [hs, if_true] at hhandle
    simp [UVSGSerialDataReceiverStart, UVSGSerialDataReceiverIsStarted, hhandle, hvalid, hs]
  · simp only [hs, if_false] at hhandle
    simp [UVSGSerialDataReceiverStart, UVSGSerialDataReceiverIsStarted, hhandle, hs]

/-- What `UVSGCreateTCPSocket` does when a setup step fails: it returns the
invalid handle; when the failed step is `socket` itself it closes nothing,
otherwise its one `close` is on the handle `socket` returned; no handle it
created is open afterwards. -/
theorem createTCPSocket_failure (port : Int) (os : SetupOutcome) (step : SetupStep)
    (hfail : firstFailedStep os = some step) :
    (UVSGCreateTCPSocket port os).1 = UVSG_SOCKET_INVALID ∧
    closedHandles (UVSGCreateTCPSocket port os).2
      = (if step = SetupStep.createSocket then [] else [os.socketRet]) ∧
    openAfter [] (UVSGCreateTCPSocket port os).2 = [] := by
  unfold firstFailedStep at hfail
  unfold UVSGCreateTCPSocket
  by_cases h1 : os.socketRet = UVSG_SOCKET_INVALID
  · simp only [h1, if_true, Option.some.injEq] at hfail
    subst hfail
    simp [h1, closedHandles, openAfter, trackOpen, UVSG_SOCKET_INVALID]
  have h1n : ¬ (os.socketRet = -1) := h1
  by_cases h2 : os.setsockoptRet < 0
  · simp only [h1, h2, if_true, if_false, Option.some.injEq] at hfail
    subst hfail
    simp [h1, h1n, h2, closedHandles, openAfter, trackOpen]
  by_cases h3 : os.setflRet = 0
  swap
  · simp only [h1, h2, h3, ne_eq, not_false_eq_true, if_true, if_false,
      Option.some.injEq] at hfail
    subst hfail
    simp [h1, h1n, h2, h3, closedHandles, openAfter, trackOpen]
  by_cases h4 : os.bindRet < 0
  · simp only [h1, h2, h3, h4, ne_eq, not_true_eq_false, if_true, if_false,
      Option.some.injEq] at hfail
    subst hfail
    simp [h1, h1n, h2, h3, h4, closedHandles, openAfter, trackOpen]
  by_cases h5 : os.listenRet < 0
  · simp only [h1, h2, h3, h4, h5, ne_eq, not_true_eq_false, if_true, if_false,
      Option.some.injEq] at hfail
    subst hfail
    simp [h1, h1n, h2, h3, h4, h5, closedHandles, openAfter, trackOpen]
  · simp [h1, h2, h3, h4, h5] at hfail

/-- C8: when a setup step fails, `UVSGCreateTCPSocket` returns the invalid
handle.  If the first step to fail is one of the four after socket creation
(`SO_REUSEADDR`, non-blocking mode, `bind`, `listen`), it closes the handle
`socket` returned exactly once and closes nothing else; if socket creation
itself fails it closes nothing.  In both cases no socket created by the call
is open afterwards, and the failed `UVSGSerialDataReceiverStart` issues just
those calls, sets the status to Error and leaves `tcpSocket` (and every other
field) as it was. -/
theorem start_failure_releases_socket (r : UVSGSerialDataReceiver) (port : Int)
    (os : SetupOutcome) (step : SetupStep) (hfail : firstFailedStep os = some step) :
    (UVSGCreateTCPSocket port os).1 = UVSG_SOCKET_INVALID ∧
    closedHandles (UVSGCreateTCPSocket port os).2
      = (if step = SetupStep.createSocket then [] else [os.socketRet]) ∧
    openAfter [] (UVSGCreateTCPSocket port os).2 = [] ∧
    (UVSGSerialDataReceiverStart r port os).calls = (UVSGCreateTCPSocket port os).2 ∧
    openAfter [] (UVSGSerialDataReceiverStart r port os).calls = [] ∧
    (UVSGSerialDataReceiverStart r port os).receiver.tcpSocket = r.tcpSocket ∧
    (UVSGSerialDataReceiverStart r port os).receiver
      = { r with connectionStatus := UVSGConnectionStatusError } := by
  obtain ⟨hinv, hclosed, hopen⟩ := createTCPSocket_failure port os step hfail
  have hcalls : (UVSGSerialDataReceiverStart r port os).calls
      = (UVSGCreateTCPSocket port os).2 := by
    simp [UVSGSerialDataReceiverStart, hinv]
  refine ⟨hinv, hclosed, hopen, hcalls, by rw [hcalls]; exact hopen, ?_, ?_⟩
  · simp [UVSGSerialDataReceiverStart, hinv]
  · simp [UVSGSerialDataReceiverStart, hinv]

/-- C8 at concrete inputs, one per setup step: when `setsockopt`, the
non-blocking `fcntl`, `bind` or `listen` is the first to fail the new handle 3
is closed once, when `socket` fails nothing is closed, and a failed Start on
the waiting receiver leaves its `tcpSocket` 3 in place. -/
theorem start_failure_releases_socket_witness :
    closedHandles (UVSGCreateTCPSocket 9999 setupReuseFails).2 = [3] ∧
    closedHandles (UVSGCreateTCPSocket 9999 setupNonBlockFails).2 = [3] ∧
    closedHandles (UVSGCreateTCPSocket 9999 setupBindFails).2 = [3] ∧
    closedHandles (UVSGCreateTCPSocket 9999 setupListenFails).2 = [3] ∧
    closedHandles (UVSGCreateTCPSocket 9999 setupSocketFails).2 = [] ∧
    openAfter [] (UVSGSerialDataReceiverStart waitingReceiver 9999 setupBindFails).calls = [] ∧
    (UVSGSerialDataReceiverStart waitingReceiver 9999 setupBindFails).receiver.tcpSocket = 3 :=
  have h1 := start_failure_releases_socket waitingReceiver 9999 setupReuseFails
    SetupStep.reuseAddress (by decide)
  have h2 := start_failure_releases_socket waitingReceiver 9999 setupNonBlockFails
    SetupStep.nonBlocking (by decide)
  have h3 := start_failure_releases_socket waitingReceiver 9999 setupBindFails
    SetupStep.bindPort (by decide)
  have h4 := start_failure_releases_socket waitingReceiver 9999 setupListenFails
    SetupStep.listenBacklog (by decide)
  have h5 := start_failure_releases_socket waitingReceiver 9999 setupSocketFails
    SetupStep.createSocket (by decide)
  ⟨h1.2.1, h2.2.1, h3.2.1, h4.2.1, h5.2.1, h3.2.2.2.2.1, h3.2.2.2.2.2.1⟩

/-! ## IsStarted -/

/-- C9: `UVSGSerialDataReceiverIsStarted` returns true if and only if the
status is WaitingForConnection or Connected, false if and only if it is
Stopped or Error, leaves every field of the receiver as it was and issues no
system call. -/
theorem is_started_pure_query (r : UVSGSerialDataReceiver) :
    ((UVSGSerialDataReceiverIsStarted r).result = true
      ↔ (r.connectionStatus = UVSGConnectionStatusWaitingForConnection ∨
          r.connectionStatus = UVSGConnectionStatusConnected)) ∧
    ((UVSGSerialDataReceiverIsStarted r).result = false
      ↔ (r.connectionStatus = UVSGConnectionStatusStopped ∨
          r.connectionStatus = UVSGConnectionStatusError)) ∧
    (UVSGSerialDataReceiverIsStarted r).receiver = r ∧
    (UVSGSerialDataReceiverIsStarted r).calls = [] := by
  obtain ⟨status, s, c, b⟩ := r
  cases status <;> simp [UVSGSerialDataReceiverIsStarted]

/-! ## End-to-end scenario -/

/-- C10 (as stated, refuted): after `create()` and a successful `start(9999)`,
`is_started()` is true; a client connects and sends `AT\r\n`; the `poll()`
that follows returns 0 bytes, not those 4 bytes, and does not touch
`*receivedData`. -/
theorem scenario_poll_after_connect_returns_nothing :
    (UVSGSerialDataReceiverIsStarted (scenarioStarted freshBlock setupOk)).result = true ∧
    (scenarioFirstPoll freshBlock setupOk (DataPointer.caller 0) clientSentAT).result = 0 ∧
    (scenarioFirstPoll freshBlock setupOk (DataPointer.caller 0) clientSentAT).receivedData
      = DataPointer.caller 0 ∧
    ¬ ((scenarioFirstPoll freshBlock setupOk (DataPointer.caller 0) clientSentAT).result = 4 ∧
        (scenarioFirstPoll freshBlock setupOk (DataPointer.caller 0)
          clientSentAT).receiver.buffer.take 4 = [65, 84, 13, 10]) := by
  decide

/-- C10 (amended): starting from `create()`, after `start(9999)` succeeds
`is_started()` is true; after an external client has connected and sent the 4
bytes `AT\r\n`, the first `poll()` accepts the connection and returns empty,
and the following `poll()` returns exactly those 4 bytes in the internal
buffer; after `stop()`, `is_started()` is false. -/
theorem scenario_two_polls_deliver (block : UVSGSerialDataReceiver) (os : SetupOutcome)
    (p : DataPointer) (os1 os2 : PollOutcome)
    (hsetup : setupSucceeds os) (hacc : os1.acceptRet ≠ -1)
    (hrecv : os2.recv = RecvOutcome.data [65, 84, 13, 10]) :
    (UVSGSerialDataReceiverIsStarted (scenarioStarted block os)).result = true ∧
    (scenarioFirstPoll block os p os1).result = 0 ∧
    (scenarioFirstPoll block os p os1).receiver.connectionStatus
      = UVSGConnectionStatusConnected ∧
    (scenarioSecondPoll block os p os1 os2).result = 4 ∧
    (scenarioSecondPoll block os p os1 os2).receivedData = DataPointer.receiverBuffer ∧
    (scenarioSecondPoll block os p os1 os2).receiver.buffer.take 4 = [65, 84, 13, 10] ∧
    (UVSGSerialDataReceiverIsStarted
      (UVSGSerialDataReceiverStop
        (scenarioSecondPoll block os p os1 os2).receiver).receiver).result = false := by
  have hstarted : (scenarioStarted block os).connectionStatus
      = UVSGConnectionStatusWaitingForConnection := by
    rw [scenarioStarted, start_success _ 9999 os hsetup]
  have hfirst : scenarioFirstPoll block os p os1
      = ⟨0, p, { scenarioStarted block os with
                  connectionStatus := UVSGConnectionStatusConnected
                  tcpConnection := os1.acceptRet },
          [OSCall.accept (scenarioStarted block os).tcpSocket os1.acceptRet]⟩ := by
    obtain ⟨hrec, hcalls⟩ := acceptConnection_success (scenarioStarted block os) os1 hacc
    rw [scenarioFirstPoll, receiveData_waiting _ p os1 hstarted, hrec, hcalls]
  have hsecond := readFromConnection_data (scenarioFirstPoll block os p os1).receiver
    (scenarioFirstPoll block os p os1).receivedData os2 [65, 84, 13, 10] hrecv
    (by decide) (by decide)
  have hconn : (scenarioFirstPoll block os p os1).receiver.connectionStatus
      = UVSGConnectionStatusConnected := by rw [hfirst]
  have hpoll2 : scenarioSecondPoll block os p os1 os2
      = UVSGSerialDataReceiverReadFromConnection (scenarioFirstPoll block os p os1).receiver
          (scenarioFirstPoll block os p os1).receivedData os2 :=
    receiveData_connected _ _ os2 hconn
  rw [hpoll2, hsecond]
  refine ⟨?_, by rw [hfirst], hconn, rfl, rfl, by simp, ?_⟩
  · simp [UVSGSerialDataReceiverIsStarted, hstarted]
  · simp [UVSGSerialDataReceiverIsStarted, UVSGSerialDataReceiverStop, hconn]

/-- C10 (amended) at the concrete input: handles 3 and 4, the client's bytes
queued at both polls. -/
theorem scenario_two_polls_deliver_witness :
    (UVSGSerialDataReceiverIsStarted (scenarioStarted freshBlock setupOk)).result = true ∧
    (scenarioFirstPoll freshBlock setupOk (DataPointer.caller 0) clientSentAT).result = 0 ∧
    (scenarioSecondPoll freshBlock setupOk (DataPointer.caller 0) clientSentAT
      clientSentAT).result = 4 ∧
    (scenarioSecondPoll freshBlock setupOk (DataPointer.caller 0) clientSentAT
      clientSentAT).receiver.buffer.take 4 = [65, 84, 13, 10] ∧
    (UVSGSerialDataReceiverIsStarted
      (UVSGSerialDataReceiverStop
        (scenarioSecondPoll freshBlock setupOk (DataPointer.caller 0) clientSentAT
          clientSentAT).receiver).receiver).result = false :=
  have h := scenario_two_polls_deliver freshBlock setupOk (DataPointer.caller 0)
    clientSentAT clientSentAT (by decide) (by decide) rfl
  ⟨h.1, h.2.1, h.2.2.2.1, h.2.2.2.2.2.1, h.2.2.2.2.2.2⟩

/-! ## A byte stream longer than the buffer -/

/-- The read from the connection when `recv` finds a non-empty sequence of
bytes ready, of any length: the first 1024 of them are delivered. -/
theorem readFromConnection_avail (r : UVSGSerialDataReceiver) (p : DataPointer)
    (os : PollOutcome) (avail : List Nat) (hrecv : os.recv = RecvOutcome.data avail)
    (hne : avail ≠ []) :
    UVSGSerialDataReceiverReadFromConnection r p os
      = ⟨(avail.take 1024).length, DataPointer.receiverBuffer,
          { r with buffer := avail.take 1024 ++ r.buffer.drop (avail.take 1024).length },
          [OSCall.recv r.tcpConnection 1024 0 ((avail.take 1024).length : Int)]⟩ := by
  have hlen : 0 < avail.length := List.length_pos.mpr hne
  have hpos : 0 < (avail.take 1024).length := by
    rw [List.length_take]
    omega
  have hneg : ¬ (((avail.take 1024).length : Int) < 0) := by omega
  have hnz : ¬ (((avail.take 1024).length : Int) = 0) := by omega
  simp only [UVSGSerialDataReceiverReadFromConnection, hrecv, RecvOutcome.count,
    RecvOutcome.store, SERIAL_TCP_BUFFER_LENGTH, hneg, hnz, if_false, Int.toNat_ofNat]

/-- A prefix of a list followed by what is left after dropping as many elements
as the prefix has is the list. -/
theorem take_append_drop_length_take (n : Nat) (l : List Nat) :
    l.take n ++ l.drop (l.take n).length = l := by
  rw [List.length_take]
  by_cases h : n ≤ l.length
  · rw [Nat.min_eq_left h]
    exact List.take_append_drop n l
  · have hle : l.length ≤ n := by omega
    rw [Nat.min_eq_right hle, List.take_of_length_le hle, List.drop_length]
    simp

/-- One poll of a Connected receiver on a byte stream: the receiver stays
Connected and the poll returns the prefix of the pending bytes of length
`min k 1024` (all of them when fewer are pending). -/
theorem receiveData_stream_step (r : UVSGSerialDataReceiver) (p : DataPointer)
    (pending : List Nat) (k : Nat)
    (hconn : r.connectionStatus = UVSGConnectionStatusConnected) (hk : 1 ≤ k) :
    (UVSGSerialDataReceiverReceiveData r p (streamOutcome pending k)).receiver.connectionStatus
      = UVSGConnectionStatusConnected ∧
    (UVSGSerialDataReceiverReceiveData r p (streamOutcome pending k)).returnedBytes
      = pending.take (min k 1024) ∧
    (UVSGSerialDataReceiverReceiveData r p (streamOutcome pending k)).result
      = (pending.take (min k 1024)).length := by
  rw [receiveData_connected r p _ hconn]
  cases pending with
  | nil =>
    have hread : UVSGSerialDataReceiverReadFromConnection r p (streamOutcome [] k)
        = ⟨0, p, r, [OSCall.recv r.tcpConnection 1024 0 (-1)]⟩ := by
      simp [UVSGSerialDataReceiverReadFromConnection, streamOutcome, RecvOutcome.count,
        RecvOutcome.store, SERIAL_TCP_BUFFER_LENGTH]
    rw [hread]
    refine ⟨hconn, ?_, by simp⟩
    cases p <;> simp [ReceiveStep.returnedBytes]
  | cons a t =>
    have hne : (a :: t).take k ≠ [] := by
      obtain ⟨j, rfl⟩ : ∃ j, k = j + 1 := ⟨k - 1, by omega⟩
      simp
    have hread := readFromConnection_avail r p (streamOutcome (a :: t) k) ((a :: t).take k)
      rfl hne
    have htake : ((a :: t).take k).take 1024 = (a :: t).take (min k 1024) := by
      rw [List.take_take, Nat.min_comm]
    rw [hread, htake]
    refine ⟨hconn, ?_, rfl⟩
    simp [ReceiveStep.returnedBytes]

/-- A run of polls of a Connected receiver on a byte stream, for any schedule
with non-zero entries: the returned sequences followed by what is still
pending are the stream, every returned sequence has at most 1024 bytes, the
number of bytes still pending is the stream length less the capacity of the
schedule, and the receiver is Connected at the end. -/
theorem pollStream_spec (ks : List Nat) :
    ∀ (r : UVSGSerialDataReceiver) (p : DataPointer) (pending : List Nat),
      r.connectionStatus = UVSGConnectionStatusConnected → (∀ k ∈ ks, 1 ≤ k) →
      (pollStream r p pending ks).returned.flatten ++ (pollStream r p pending ks).pending
        = pending ∧
      (∀ chunk ∈ (pollStream r p pending ks).returned, chunk.length ≤ 1024) ∧
      (pollStream r p pending ks).pending.length = pending.length - scheduleCapacity ks ∧
      (pollStream r p pending ks).receiver.connectionStatus
        = UVSGConnectionStatusConnected := by
  induction ks with
  | nil =>
    intro r p pending hconn _
    simp [pollStream, scheduleCapacity, hconn]
  | cons k ks ih =>
    intro r p pending hconn hks
    have hk : 1 ≤ k := hks k (List.mem_cons_self k ks)
    have hrest : ∀ j ∈ ks, 1 ≤ j := fun j hj => hks j (List.mem_cons_of_mem k hj)
    obtain ⟨hstatus, hbytes, hresult⟩ := receiveData_stream_step r p pending k hconn hk
    obtain ⟨hcat, hchunks, hleft, hend⟩ :=
      ih (UVSGSerialDataReceiverReceiveData r p (streamOutcome pending k)).receiver
        (UVSGSerialDataReceiverReceiveData r p (streamOutcome pending k)).receivedData
        (pending.drop
          (UVSGSerialDataReceiverReceiveData r p (streamOutcome pending k)).result)
        hstatus hrest
    simp only [pollStream]
    refine ⟨?_, ?_, ?_, hend⟩
    · rw [List.flatten_cons, List.append_assoc, hcat, hbytes, hresult]
      exact take_append_drop_length_take (min k 1024) pending
    · intro chunk hmem
      rcases List.mem_cons.mp hmem with rfl | hmem
      · rw [hbytes, List.length_take]
        omega
      · exact hchunks chunk hmem
    · rw [hleft, hresult, List.length_drop, List.length_take]
      simp only [scheduleCapacity, List.map_cons, List.sum_cons, SERIAL_TCP_BUFFER_LENGTH]
      omega

/-- C11: for a Connected receiver and a byte stream `s` of more than 1024
bytes pending on the peer socket, where each `recv` delivers a non-empty
prefix of at most 1024 bytes of what is still pending (schedule entries at
least 1), every poll returns at most 1024 bytes (so none returns all of `s`),
at every point the returned sequences in call order followed by the bytes
still pending are `s`, and once the polls made could deliver `s.length` bytes
nothing is pending and the concatenation of the returned sequences is `s`. -/
theorem stream_longer_than_buffer_is_delivered (r : UVSGSerialDataReceiver) (p : DataPointer)
    (s : List Nat) (ks : List Nat)
    (hconn : r.connectionStatus = UVSGConnectionStatusConnected)
    (hlong : 1024 < s.length) (hks : ∀ k ∈ ks, 1 ≤ k)
    (henough : s.length ≤ scheduleCapacity ks) :
    (∀ chunk ∈ (pollStream r p s ks).returned,
      chunk.length ≤ 1024 ∧ chunk.length < s.length) ∧
    (∀ js : List Nat, (∀ j ∈ js, 1 ≤ j) →
      (pollStream r p s js).returned.flatten ++ (pollStream r p s js).pending = s) ∧
    (pollStream r p s ks).pending = [] ∧
    (pollStream r p s ks).returned.flatten = s := by
  obtain ⟨hcat, hchunks, hleft, -⟩ := pollStream_spec ks r p s hconn hks
  have hnil : (pollStream r p s ks).pending = [] := by
    apply List.eq_nil_of_length_eq_zero
    omega
  refine ⟨?_, ?_, hnil, ?_⟩
  · intro chunk hmem
    have := hchunks chunk hmem
    exact ⟨this, by omega⟩
  · intro js hjs
    exact (pollStream_spec js r p s hconn hjs).1
  · rw [hnil, List.append_nil] at hcat
    exact hcat

/-- The concrete long stream has 1027 bytes. -/
theorem longStream_length : longStream.length = 1027 := by
  simp only [longStream, List.length_append, List.length_replicate, List.length_cons,
    List.length_nil]

/-- C11 at a concrete input: the stream of 1027 bytes read by two polls of the
Connected receiver comes back whole, in order, in pieces of at most 1024. -/
theorem stream_longer_than_buffer_is_delivered_witness :
    (∀ chunk ∈ (pollStream connectedReceiver (DataPointer.caller 0) longStream
        [4096, 4096]).returned, chunk.length ≤ 1024 ∧ chunk.length < longStream.length) ∧
    (pollStream connectedReceiver (DataPointer.caller 0) longStream
        [4096, 4096]).returned.flatten = longStream :=
  have h := stream_longer_than_buffer_is_delivered connectedReceiver (DataPointer.caller 0)
    longStream [4096, 4096] rfl (by simp [longStream_length]) (by decide)
    (by simp [longStream_length, scheduleCapacity, SERIAL_TCP_BUFFER_LENGTH])
  ⟨h.1, h.2.2.2⟩

/-! ## Stop in the waiting, stopped and error states -/

/-- C12 (the code at the failing input): after `create()` on a block whose
connection field holds 0 and a successful `start(9999)` that created handle 3,
the receiver is waiting for a connection and holds only handle 3; Stop then
issues `close(0)` on the connection field, a handle the receiver never
received from `accept`, before `close(3)`. -/
theorem stop_waiting_closes_connection_field :
    (scenarioStarted freshBlock setupOk).connectionStatus
      = UVSGConnectionStatusWaitingForConnection ∧
    heldHandles (scenarioStarted freshBlock setupOk) = [3] ∧
    (UVSGSerialDataReceiverStop (scenarioStarted freshBlock setupOk)).calls
      = [OSCall.close 0, OSCall.close 3] ∧
    closedHandles (UVSGSerialDataReceiverStop (scenarioStarted freshBlock setupOk)).calls
      ≠ [3] ∧
    (UVSGSerialDataReceiverStop (scenarioStarted freshBlock setupOk)).receiver.connectionStatus
      = UVSGConnectionStatusStopped := by
  decide

/-- C13: when the status is Stopped or Error, Stop issues no system call (so
closes no socket) and leaves every field of the receiver, the status
included, as it was. -/
theorem stop_is_noop_when_stopped_or_error (r : UVSGSerialDataReceiver)
    (hstate : r.connectionStatus = UVSGConnectionStatusStopped ∨
              r.connectionStatus = UVSGConnectionStatusError) :
    (UVSGSerialDataReceiverStop r).receiver = r ∧
    (UVSGSerialDataReceiverStop r).calls = [] ∧
    closedHandles (UVSGSerialDataReceiverStop r).calls = [] := by
  rcases hstate with h | h <;> simp [UVSGSerialDataReceiverStop, h, closedHandles]

/-- C13 at concrete inputs: Stop right after `create()`, and Stop after a
failed `start(9999)`, change nothing and issue no call. -/
theorem stop_is_noop_when_stopped_or_error_witness :
    ((UVSGSerialDataReceiverStop (UVSGSerialDataReceiverCreate freshBlock)).receiver
        = UVSGSerialDataReceiverCreate freshBlock ∧
      (UVSGSerialDataReceiverStop (UVSGSerialDataReceiverCreate freshBlock)).calls = []) ∧
    ((UVSGSerialDataReceiverStop failedStartReceiver).receiver = failedStartReceiver ∧
      (UVSGSerialDataReceiverStop failedStartReceiver).calls = []) :=
  have h1 := stop_is_noop_when_stopped_or_error (UVSGSerialDataReceiverCreate freshBlock)
    (Or.inl rfl)
  have h2 := stop_is_noop_when_stopped_or_error failedStartReceiver (Or.inr (by decide))
  ⟨⟨h1.1, h1.2.1⟩, ⟨h2.1, h2.2.1⟩⟩

/-! ## Poll in the stopped and error states -/

/-- C14: when the status is Stopped or Error, a poll returns 0, issues no
system call (no `accept`, `recv` or `close`), and leaves every field of the
receiver and the caller's `*receivedData` as they were, whatever the OS
would have answered. -/
theorem poll_is_noop_when_stopped_or_error (r : UVSGSerialDataReceiver) (p : DataPointer)
    (os : PollOutcome)
    (hstate : r.connectionStatus = UVSGConnectionStatusStopped ∨
              r.connectionStatus = UVSGConnectionStatusError) :
    (UVSGSerialDataReceiverReceiveData r p os).result = 0 ∧
    (UVSGSerialDataReceiverReceiveData r p os).calls = [] ∧
    acceptHandles (UVSGSerialDataReceiverReceiveData r p os).calls = [] ∧
    recvHandles (UVSGSerialDataReceiverReceiveData r p os).calls = [] ∧
    closedHandles (UVSGSerialDataReceiverReceiveData r p os).calls = [] ∧
    (UVSGSerialDataReceiverReceiveData r p os).receiver = r ∧
    (UVSGSerialDataReceiverReceiveData r p os).receivedData = p := by
  rcases hstate with h | h <;>
    simp [UVSGSerialDataReceiverReceiveData, h, closedHandles, acceptHandles, recvHandles]

/-- C14 at concrete inputs: polls right after `create()` and after a failed
`start(9999)`, with a client pending, return 0 and issue no call. -/
theorem poll_is_noop_when_stopped_or_error_witness :
    ((UVSGSerialDataReceiverReceiveData (UVSGSerialDataReceiverCreate freshBlock)
        (DataPointer.caller 0) clientSentAT).result = 0 ∧
      (UVSGSerialDataReceiverReceiveData (UVSGSerialDataReceiverCreate freshBlock)
        (DataPointer.caller 0) clientSentAT).calls = []) ∧
    ((UVSGSerialDataReceiverReceiveData failedStartReceiver
        (DataPointer.caller 0) clientSentAT).result = 0 ∧
      (UVSGSerialDataReceiverReceiveData failedStartReceiver
        (DataPointer.caller 0) clientSentAT).receiver = failedStartReceiver) :=
  have h1 := poll_is_noop_when_stopped_or_error (UVSGSerialDataReceiverCreate freshBlock)
    (DataPointer.caller 0) clientSentAT (Or.inl rfl)
  have h2 := poll_is_noop_when_stopped_or_error failedStartReceiver
    (DataPointer.caller 0) clientSentAT (Or.inr (by decide))
  ⟨⟨h1.1, h1.2.1⟩, ⟨h2.1, h2.2.2.2.2.2.1⟩⟩

/-! ## Non-blocking mode and ownership over a session -/

/-- C15 (the code at the failing input): no poll ever puts a handle into
non-blocking mode; in the session `create()`, `start(9999)` (handle 3), a poll
that accepts a client (handle 4) and a poll that reads its 4 bytes, `accept`
is called on handle 3 and `recv` on handle 4, and the only handle the
component has put into non-blocking mode is 3: the `recv` is on a handle
whose mode the component never set. -/
theorem recv_handle_never_set_non_blocking :
    (∀ (r : UVSGSerialDataReceiver) (p : DataPointer) (os : PollOutcome),
      nonBlockingHandles (UVSGSerialDataReceiverReceiveData r p os).calls = []) ∧
    acceptHandles (runSession freshBlock (DataPointer.caller 0) sessionReadFromClient).calls
      = [3] ∧
    recvHandles (runSession freshBlock (DataPointer.caller 0) sessionReadFromClient).calls
      = [4] ∧
    nonBlockingHandles
      (runSession freshBlock (DataPointer.caller 0) sessionReadFromClient).calls = [3] ∧
    (4 : UVSGSocket) ∉ nonBlockingHandles
      (runSession freshBlock (DataPointer.caller 0) sessionReadFromClient).calls := by
  refine ⟨?_, by decide, by decide, by decide, by decide⟩
  intro r p os
  unfold UVSGSerialDataReceiverReceiveData UVSGSerialDataReceiverAcceptConnection
    UVSGSerialDataReceiverReadFromConnection
  cases r.connectionStatus <;> simp only [] <;> (try split_ifs) <;> simp [nonBlockingHandles]

/-- C16 (the code at the failing inputs), each session starting from
`create()` with Start called in the Stopped state only.  Stop while Connected:
the status is Stopped and the receiver holds nothing, yet the accepted handle
4 is still open.  Stop while waiting, no client ever accepted: handle 0, which
the receiver never created or accepted, is closed.  Stop after the peer
disconnected: handle 4 is closed a second time. -/
theorem ownership_broken_by_stop :
    ((runSession freshBlock (DataPointer.caller 0)
        sessionStopWhileConnected).receiver.connectionStatus = UVSGConnectionStatusStopped ∧
      heldHandles (runSession freshBlock (DataPointer.caller 0)
        sessionStopWhileConnected).receiver = [] ∧
      openAfter [] (runSession freshBlock (DataPointer.caller 0)
        sessionStopWhileConnected).calls = [4]) ∧
    closedHandles (runSession freshBlock (DataPointer.caller 0)
        sessionStopWhileWaiting).calls = [0, 3] ∧
    closedHandles (runSession freshBlock (DataPointer.caller 0)
        sessionStopAfterDisconnect).calls = [4, 4, 3] := by
  decide

/-! ## The system calls of a setup -/

/-- Converting a port in the 16-bit range to network order twice gives the
port back, so the network-order value in a `bind` identifies the port. -/
theorem htons_htons (port : Int) (hlo : 0 ≤ port) (hhi : port < 65536) :
    htons (htons port) = port := by
  have hport : port % 65536 = port := Int.emod_eq_of_lt hlo hhi
  have hswap : (port % 256 * 256 + port / 256) % 65536 = port % 256 * 256 + port / 256 := by
    apply Int.emod_eq_of_lt <;> omega
  simp only [htons, hport, hswap]
  omega

/-- The calls of a fully successful `UVSGCreateTCPSocket`. -/
theorem createTCPSocket_success (port : Int) (os : SetupOutcome) (hsetup : setupSucceeds os) :
    UVSGCreateTCPSocket port os
      = (os.socketRet,
          [OSCall.socket AF_INET SOCK_STREAM IPPROTO_TCP os.socketRet,
           OSCall.setsockopt os.socketRet SOL_SOCKET SO_REUSEADDR 1 os.setsockoptRet,
           OSCall.fcntl os.socketRet F_GETFL 0 os.getflRet,
           OSCall.fcntl os.socketRet F_SETFL (Int.lor os.getflRet O_NONBLOCK) 0,
           OSCall.bind os.socketRet AF_INET (htons port) (htonl INADDR_ANY) os.bindRet,
           OSCall.listen os.socketRet 1 os.listenRet]) := by
  obtain ⟨h1, h2, h3, h4, h5⟩ := hsetup
  have h2n : ¬ (os.setsockoptRet < 0) := by omega
  have h4n : ¬ (os.bindRet < 0) := by omega
  have h5n : ¬ (os.listenRet < 0) := by omega
  simp [UVSGCreateTCPSocket, h1, h2n, h3, h4n, h5n]

/-- The setup steps issued by a failing `UVSGCreateTCPSocket` are those up to
and including the first failing one. -/
theorem createTCPSocket_stops_at_failure (port : Int) (os : SetupOutcome) (step : SetupStep)
    (hfail : firstFailedStep os = some step) :
    issuedSteps (UVSGCreateTCPSocket port os).2 = stepsThrough step := by
  unfold firstFailedStep at hfail
  unfold UVSGCreateTCPSocket
  by_cases h1 : os.socketRet = UVSG_SOCKET_INVALID
  · simp only [h1, if_true, Option.some.injEq] at hfail
    subst hfail
    simp [h1, issuedSteps, setupStepOf, stepsThrough]
  by_cases h2 : os.setsockoptRet < 0
  · simp only [h1, h2, if_true, if_false, Option.some.injEq] at hfail
    subst hfail
    simp [h1, h2, issuedSteps, setupStepOf, stepsThrough, F_GETFL, F_SETFL]
  by_cases h3 : os.setflRet = 0
  swap
  · simp only [h1, h2, h3, ne_eq, not_false_eq_true, if_true, if_false,
      Option.some.injEq] at hfail
    subst hfail
    simp [h1, h2, h3, issuedSteps, setupStepOf, stepsThrough, F_GETFL, F_SETFL]
  by_cases h4 : os.bindRet < 0
  · simp only [h1, h2, h3, h4, ne_eq, not_true_eq_false, if_true, if_false,
      Option.some.injEq] at hfail
    subst hfail
    simp [h1, h2, h3, h4, issuedSteps, setupStepOf, stepsThrough, F_GETFL, F_SETFL]
  by_cases h5 : os.listenRet < 0
  · simp only [h1, h2, h3, h4, h5, ne_eq, not_true_eq_false, if_true, if_false,
      Option.some.injEq] at hfail
    subst hfail
    simp [h1, h2, h3, h4, h5, issuedSteps, setupStepOf, stepsThrough, F_GETFL, F_SETFL]
  · simp [h1, h2, h3, h4, h5] at hfail

/-- C17: on a fully successful call `UVSGCreateTCPSocket(port)` returns the
handle `socket` gave and issues exactly these calls, all on that handle, in
this order: `socket(AF_INET, SOCK_STREAM, IPPROTO_TCP)`, `setsockopt` of
`SO_REUSEADDR` to 1, the `fcntl` pair that reads the flags and sets them with
`O_NONBLOCK` added, `bind` to the port (network order, a port in the 16-bit
range being recoverable from it) on the wildcard address `INADDR_ANY` (0),
`listen` with backlog 1; and on any call, when a step fails, the steps issued
are those up to and including the first failing one and the result is the
invalid handle. -/
theorem create_socket_call_sequence (port : Int) (os : SetupOutcome)
    (hsetup : setupSucceeds os) :
    UVSGCreateTCPSocket port os
      = (os.socketRet,
          [OSCall.socket AF_INET SOCK_STREAM IPPROTO_TCP os.socketRet,
           OSCall.setsockopt os.socketRet SOL_SOCKET SO_REUSEADDR 1 os.setsockoptRet,
           OSCall.fcntl os.socketRet F_GETFL 0 os.getflRet,
           OSCall.fcntl os.socketRet F_SETFL (Int.lor os.getflRet O_NONBLOCK) 0,
           OSCall.bind os.socketRet AF_INET (htons port) (htonl INADDR_ANY) os.bindRet,
           OSCall.listen os.socketRet 1 os.listenRet]) ∧
    issuedSteps (UVSGCreateTCPSocket port os).2 = stepsThrough SetupStep.listenBacklog ∧
    htonl INADDR_ANY = 0 ∧
    (0 ≤ port → port < 65536 → htons (htons port) = port) ∧
    (∀ (os1 : SetupOutcome) (step : SetupStep), firstFailedStep os1 = some step →
      issuedSteps (UVSGCreateTCPSocket port os1).2 = stepsThrough step ∧
      (UVSGCreateTCPSocket port os1).1 = UVSG_SOCKET_INVALID) := by
  have hcalls := createTCPSocket_success port os hsetup
  refine ⟨hcalls, ?_, by decide, htons_htons port, ?_⟩
  · rw [hcalls]
    simp [issuedSteps, setupStepOf, stepsThrough, F_GETFL, F_SETFL]
  · intro os1 step hfail
    exact ⟨createTCPSocket_stops_at_failure port os1 step hfail,
      (createTCPSocket_failure port os1 step hfail).1⟩

/-- C17 at a concrete input: the six calls of a successful setup for port 9999
on handle 3, and the calls of a setup whose `bind` fails, which issues no
`listen`. -/
theorem create_socket_call_sequence_witness :
    UVSGCreateTCPSocket 9999 setupOk
      = (3, [OSCall.socket 2 1 6 3, OSCall.setsockopt 3 1 2 1 0, OSCall.fcntl 3 3 0 2,
              OSCall.fcntl 3 4 2050 0, OSCall.bind 3 2 3879 0 0, OSCall.listen 3 1 0]) ∧
    issuedSteps (UVSGCreateTCPSocket 9999 setupBindFails).2
      = [SetupStep.createSocket, SetupStep.reuseAddress, SetupStep.nonBlocking,
          SetupStep.bindPort] :=
  have h := create_socket_call_sequence 9999 setupOk (by decide)
  ⟨h.1, (h.2.2.2.2 setupBindFails SetupStep.bindPort (by decide)).1⟩

/-! ## Start on a receiver that is already started -/

/-- A successful setup issues no `close` and opens exactly the handle `socket`
returned. -/
theorem createTCPSocket_success_opens (port : Int) (os : SetupOutcome)
    (hsetup : setupSucceeds os) :
    closedHandles (UVSGCreateTCPSocket port os).2 = [] ∧
    ∀ opened : List UVSGSocket,
      openAfter opened (UVSGCreateTCPSocket port os).2 = os.socketRet :: opened := by
  have hvalid : ¬ (os.socketRet = -1) := hsetup.1
  rw [createTCPSocket_success port os hsetup]
  refine ⟨by simp [closedHandles], ?_⟩
  intro opened
  simp [openAfter, trackOpen, hvalid]

/-- C18 (as stated, refuted): a successful second Start (new handle 5) on the
Connected receiver with listen handle 3 and peer handle 4 leaves the peer
handle 4, which the receiver held, stored in `tcpConnection`: it is still
referenced by the receiver, and a Stop that follows calls `close` on it. -/
theorem double_start_keeps_peer_in_connection_field :
    (4 : UVSGSocket) ∈ heldHandles connectedReceiver ∧
    (UVSGSerialDataReceiverStart connectedReceiver 9999 setupOkAgain).receiver.tcpConnection
      = 4 ∧
    ¬ ((4 : UVSGSocket) ∉ referencedHandles
        (UVSGSerialDataReceiverStart connectedReceiver 9999 setupOkAgain).receiver) ∧
    (UVSGSerialDataReceiverStop
        (UVSGSerialDataReceiverStart connectedReceiver 9999 setupOkAgain).receiver).calls
      = [OSCall.close 4, OSCall.close 5] := by
  decide

/-- C18 (amended): for every receiver whose status is WaitingForConnection or
Connected, a successful Start whose new handle differs from the previous
listen handle overwrites `tcpSocket` with the new handle, sets the status to
WaitingForConnection and changes no other field; it issues no `close`, so
every handle open before (the previous listen handle and, when Connected, the
peer handle) is still open, next to the new one.  The previous listen handle
is no longer in `tcpSocket`, and in no field at all unless `tcpConnection`
held the same number; `tcpConnection` keeps its value, so the peer handle of
a Connected receiver is still stored there. -/
theorem double_start_leaks_listen_handle (r : UVSGSerialDataReceiver) (port : Int)
    (os : SetupOutcome)
    (hstarted : r.connectionStatus = UVSGConnectionStatusWaitingForConnection ∨
                r.connectionStatus = UVSGConnectionStatusConnected)
    (hsetup : setupSucceeds os) (hfresh : os.socketRet ≠ r.tcpSocket) :
    r.tcpSocket ∈ heldHandles r ∧
    (UVSGSerialDataReceiverStart r port os).receiver
      = { r with connectionStatus := UVSGConnectionStatusWaitingForConnection
                 tcpSocket := os.socketRet } ∧
    closedHandles (UVSGSerialDataReceiverStart r port os).calls = [] ∧
    (∀ opened : List UVSGSocket,
      openAfter opened (UVSGSerialDataReceiverStart r port os).calls
        = os.socketRet :: opened) ∧
    (∀ h ∈ heldHandles r, ∀ opened : List UVSGSocket, h ∈ opened →
      h ∈ openAfter opened (UVSGSerialDataReceiverStart r port os).calls) ∧
    (UVSGSerialDataReceiverStart r port os).receiver.tcpSocket ≠ r.tcpSocket ∧
    (r.tcpConnection ≠ r.tcpSocket →
      r.tcpSocket ∉ referencedHandles (UVSGSerialDataReceiverStart r port os).receiver) ∧
    (UVSGSerialDataReceiverStart r port os).receiver.tcpConnection = r.tcpConnection := by
  have hrec := start_success r port os hsetup
  obtain ⟨hclosed, hopen⟩ := createTCPSocket_success_opens port os hsetup
  have hcalls : (UVSGSerialDataReceiverStart r port os).calls
      = (UVSGCreateTCPSocket port os).2 := by
    simp only [UVSGSerialDataReceiverStart]
    split_ifs <;> rfl
  have hheld : r.tcpSocket ∈ heldHandles r := by
    rcases hstarted with h | h <;> simp [heldHandles, h]
  rw [hrec, hcalls]
  refine ⟨hheld, rfl, hclosed, hopen, ?_, hfresh, ?_, rfl⟩
  · intro h _ opened hmem
    rw [hopen opened]
    exact List.mem_cons_of_mem _ hmem
  · intro hne
    simp only [referencedHandles, List.mem_cons, List.mem_singleton, List.not_mem_nil,
      or_false, not_or]
    exact ⟨fun heq => hfresh heq.symm, fun heq => hne heq.symm⟩

/-- C18 (amended) at concrete inputs: a second successful Start (handle 5) on
the waiting receiver and on the Connected receiver stores 5, closes nothing,
and leaves handles 3 and 4 open. -/
theorem double_start_leaks_listen_handle_witness :
    ((UVSGSerialDataReceiverStart waitingReceiver 9999 setupOkAgain).receiver.tcpSocket = 5 ∧
      closedHandles (UVSGSerialDataReceiverStart waitingReceiver 9999 setupOkAgain).calls
        = []) ∧
    ((UVSGSerialDataReceiverStart connectedReceiver 9999
        setupOkAgain).receiver.connectionStatus = UVSGConnectionStatusWaitingForConnection ∧
      openAfter [4, 3] (UVSGSerialDataReceiverStart connectedReceiver 9999 setupOkAgain).calls
        = [5, 4, 3] ∧
      (3 : UVSGSocket) ∉ referencedHandles
        (UVSGSerialDataReceiverStart connectedReceiver 9999 setupOkAgain).receiver) :=
  have h1 := double_start_leaks_listen_handle waitingReceiver 9999 setupOkAgain
    (Or.inl rfl) (by decide) (by decide)
  have h2 := double_start_leaks_listen_handle connectedReceiver 9999 setupOkAgain
    (Or.inr rfl) (by decide) (by decide)
  ⟨⟨congrArg UVSGSerialDataReceiver.tcpSocket h1.2.1, h1.2.2.1⟩,
    ⟨congrArg UVSGSerialDataReceiver.connectionStatus h2.2.1, h2.2.2.2.1 [4, 3],
      h2.2.2.2.2.2.2.1 (by decide)⟩⟩

/-! ## What a poll can change -/

/-- C19: for every receiver, caller pointer and OS answer,
`UVSGSerialDataReceiverIsStarted` returns the same value after a poll as
before it; the status after the poll is the status before it, or the poll
went from WaitingForConnection to Connected, or from Connected to
WaitingForConnection; the status after a poll is Stopped exactly when it was
Stopped before, and Error exactly when it was Error before. -/
theorem poll_never_starts_or_stops (r : UVSGSerialDataReceiver) (p : DataPointer)
    (os : PollOutcome) :
    (UVSGSerialDataReceiverIsStarted (UVSGSerialDataReceiverReceiveData r p os).receiver).result
      = (UVSGSerialDataReceiverIsStarted r).result ∧
    ((UVSGSerialDataReceiverReceiveData r p os).receiver.connectionStatus = r.connectionStatus ∨
      (r.connectionStatus = UVSGConnectionStatusWaitingForConnection ∧
        (UVSGSerialDataReceiverReceiveData r p os).receiver.connectionStatus
          = UVSGConnectionStatusConnected) ∨
      (r.connectionStatus = UVSGConnectionStatusConnected ∧
        (UVSGSerialDataReceiverReceiveData r p os).receiver.connectionStatus
          = UVSGConnectionStatusWaitingForConnection)) ∧
    ((UVSGSerialDataReceiverReceiveData r p os).receiver.connectionStatus
        = UVSGConnectionStatusStopped ↔ r.connectionStatus = UVSGConnectionStatusStopped) ∧
    ((UVSGSerialDataReceiverReceiveData r p os).receiver.connectionStatus
        = UVSGConnectionStatusError ↔ r.connectionStatus = UVSGConnectionStatusError) := by
  obtain ⟨status, s, c, b⟩ := r
  unfold UVSGSerialDataReceiverReceiveData UVSGSerialDataReceiverAcceptConnection
    UVSGSerialDataReceiverReadFromConnection UVSGSerialDataReceiverIsStarted
  cases status <;> simp only [] <;> (try split_ifs) <;> simp

/-- C20: for every receiver, caller pointer and OS answer, the caller's
`*receivedData` after a poll is the address of the internal buffer when the
poll returned more than 0, and the value it had before the poll when the
poll returned 0; the poll returns more than 0 exactly when the receiver is
Connected and `recv` returned more than 0. -/
theorem poll_writes_pointer_only_with_data (r : UVSGSerialDataReceiver) (p : DataPointer)
    (os : PollOutcome) :
    (UVSGSerialDataReceiverReceiveData r p os).receivedData
      = (if 0 < (UVSGSerialDataReceiverReceiveData r p os).result
          then DataPointer.receiverBuffer else p) ∧
    (0 < (UVSGSerialDataReceiverReceiveData r p os).result ↔
      (r.connectionStatus = UVSGConnectionStatusConnected ∧
        0 < os.recv.count SERIAL_TCP_BUFFER_LENGTH)) := by
  obtain ⟨status, s, c, b⟩ := r
  cases status
  · simp [UVSGSerialDataReceiverReceiveData]
  · simp [UVSGSerialDataReceiverReceiveData]
  · simp [UVSGSerialDataReceiverReceiveData]
  · simp only [UVSGSerialDataReceiverReceiveData, UVSGSerialDataReceiverReadFromConnection]
    by_cases hneg : os.recv.count SERIAL_TCP_BUFFER_LENGTH < 0
    · have hnot : ¬ (0 < os.recv.count SERIAL_TCP_BUFFER_LENGTH) := by omega
      simp only [hneg, if_true]
      by_cases herr : os.errno = EAGAIN <;> simp [herr, hnot]
    · by_cases hzero : os.recv.count SERIAL_TCP_BUFFER_LENGTH = 0
      · simp [hzero]
      · have hpos : 0 < os.recv.count SERIAL_TCP_BUFFER_LENGTH := by omega
        simp [hneg, hzero, hpos]
